import Mathlib

/-
  Verification of the wined3d buffer residency and vertex-conversion engine
  (src/dlls/wined3d/buffer.c) against its natural-language specification.

  Shallow embedding notes:
  - Machine DWORDs are Nat with explicit masking where overflow matters.
  - Byte memories (host heap memory, device buffer objects) are modelled as
    total functions Nat → Nat holding byte values; freshly allocated or
    memset memory is the all-zero function (heap_alloc contents are
    unspecified in C; zero is our stand-in, and no theorem depends on the
    contents of uninitialized bytes).
  - Fallible external services (heap_alloc, wined3d_array_reserve,
    wined3d_resource_prepare_sysmem, BO creation, the alignment of the
    pointer returned by wined3d_context_map_bo_address) are oracles carried
    in a Ctx record; each C call site consults the corresponding field.
  - The device-object ("GL") backend is the one embedded, following
    wined3d_buffer_gl_prepare_location / wined3d_buffer_gl_unload_location.
  - A ghost counter `copies` counts calls to wined3d_context_copy_bo_address
    (the backend copy primitive); it affects nothing else.
-/

namespace Wined3dBuffer

/-- WINED3D_LOCATION_DISCARDED (0x1). The four location bits mirror the
wined3d location bitmask; only their distinctness and bit positions are
used. -/
def LOC_DISCARDED : Nat := 1

/-- WINED3D_LOCATION_SYSMEM (0x2). -/
def LOC_SYSMEM : Nat := 2

/-- WINED3D_LOCATION_CLEARED (0x4). -/
def LOC_CLEARED : Nat := 4

/-- WINED3D_LOCATION_BUFFER (0x8). -/
def LOC_BUFFER : Nat := 8

/-- 32-bit bitwise complement, as produced by the C expression `~mask` on a
DWORD location mask. -/
def locNot (m : Nat) : Nat := 4294967295 ^^^ (m &&& 4294967295)

/-- VB_MAXDECLCHANGES: after that number of decl changes we stop converting. -/
def VB_MAXDECLCHANGES : Nat := 100

/-- VB_RESETDECLCHANGE: reset the decl changecount after that number of draws. -/
def VB_RESETDECLCHANGE : Nat := 1000

/-- VB_MAXFULLCONVERSIONS: number of full conversions before we stop converting. -/
def VB_MAXFULLCONVERSIONS : Nat := 5

/-- VB_RESETFULLCONVS: reset full conversion counts after that number of draws. -/
def VB_RESETFULLCONVS : Nat := 20

/-- SB_MIN_SIZE: minimum size of an allocated streaming buffer (512 * 1024). -/
def SB_MIN_SIZE : Nat := 524288

/-- wined3d_buffer_conversion_type. -/
inductive ConvType where
  | CONV_NONE
  | CONV_D3DCOLOR
  | CONV_POSITIONT
deriving DecidableEq, Repr

/-- The HRESULT values produced by the embedded functions. WINED3D_OK and
S_OK share the numeric value 0 in the source and are identified here. -/
inductive HResult where
  | WINED3D_OK
  | E_INVALIDARG
  | E_OUTOFMEMORY
  | WINED3DERR_INVALIDCALL
deriving DecidableEq, Repr

/-- Map flags of interest (WINED3D_MAP_READ / WRITE / DISCARD / NOOVERWRITE),
decomposed from the C bitmask into named booleans. -/
structure MapFlags where
  read : Bool
  write : Bool
  discard : Bool
  nooverwrite : Bool
deriving DecidableEq, Repr

/-- struct wined3d_buffer, restricted to the state the claims are about.
`maps` is the list of the first `modified_areas` entries of the C dirty-range
array (so `modified_areas = maps.length`); `map_ptr` records whether a BO
mapping pointer is held; `copies` is ghost instrumentation counting
wined3d_context_copy_bo_address calls. The usage bitmask is decomposed into
`usage_dynamic` / `usage_staticdecl` booleans, and WINED3D_BUFFER_HASDESC /
WINED3D_BUFFER_USE_BO into `flag_hasdesc` / `flag_use_bo`. -/
structure Buffer where
  size : Nat
  usage_dynamic : Bool
  usage_staticdecl : Bool
  locations : Nat
  heap_memory : Option (Nat → Nat)
  buffer_object : Option (Nat → Nat)
  maps : List (Nat × Nat)
  conversion_map : Option (List ConvType)
  stride : Nat
  conversion_stride : Nat
  flag_hasdesc : Bool
  flag_use_bo : Bool
  decl_change_count : Nat
  full_conversion_count : Nat
  draw_count : Nat
  map_count : Nat
  map_ptr : Bool
  pin_sysmem : Bool
  copies : Nat

/-- Oracles for external, fallible services consulted by the embedded code,
plus the read-only configuration bits the load path reads from
wined3d_d3d_info and the GL capability bits read at creation time. -/
structure Ctx where
  sysmem_alloc_ok : Bool
  bo_heap_alloc_ok : Bool
  bo_create_ok : Bool
  array_reserve_ok : Bool
  scratch_alloc_ok : Bool
  maps_alloc_ok : Bool
  map_ptr_aligned : Bool
  vertex_bgra : Bool
  ffp_generic_attributes : Bool
  xyzrhw : Bool
  gl_vbo : Bool
  gl_map_range : Bool

/-- The all-success, aligned-pointer context (no capability restrictions). -/
def ctxOk : Ctx :=
  ⟨true, true, true, true, true, true, true, true, true, true, true, true⟩

/-- The all-zero byte memory (fresh or memset storage). -/
def memZero : Nat → Nat := fun _ => 0

/-- memcpy of `len` bytes at offset `off` from `src` into `dst` (same
offsets on both sides, as in the upload paths). -/
def memCopyRange (src dst : Nat → Nat) (off len : Nat) : Nat → Nat :=
  fun i => if off ≤ i ∧ i < off + len then src i else dst i

/-- wined3d_context_copy_bo_address data movement: copy each range of the
list from `src` into `dst`. -/
def memCopyRanges (ranges : List (Nat × Nat)) (src dst : Nat → Nat) : Nat → Nat :=
  ranges.foldl (fun d r => memCopyRange src d r.1 r.2) dst

/-- Read a little-endian DWORD at byte offset `off`. -/
def readDword (m : Nat → Nat) (off : Nat) : Nat :=
  m off % 256 + 256 * (m (off + 1) % 256) + 65536 * (m (off + 2) % 256)
    + 16777216 * (m (off + 3) % 256)

/-- Write a little-endian DWORD at byte offset `off`. -/
def writeDword (m : Nat → Nat) (off w : Nat) : Nat → Nat :=
  fun i =>
    if i = off then w % 256
    else if i = off + 1 then w / 256 % 256
    else if i = off + 2 then w / 65536 % 256
    else if i = off + 3 then w / 16777216 % 256
    else m i

/-- buffer_invalidate_bo_range: record a dirty range against the BO, with
the whole-buffer collapse rule. wined3d_array_reserve lives outside src/
and is modelled by the `array_reserve_ok` oracle (growth-allocation
failure). -/
def buffer_invalidate_bo_range (ctx : Ctx) (b : Buffer) (offset size : Nat) : Buffer :=
  if offset = 0 ∧ (size = 0 ∨ size = b.size) then
    { b with maps := [(0, b.size)] }
  else if offset > b.size ∨ size > b.size - offset then
    { b with maps := [(0, b.size)] }
  else if ¬ctx.array_reserve_ok then
    { b with maps := [(0, b.size)] }
  else
    { b with maps := b.maps ++ [(offset, size)] }

/-- buffer_clear_dirty_areas. -/
def buffer_clear_dirty_areas (b : Buffer) : Buffer :=
  { b with maps := [] }

/-- buffer_is_dirty. -/
def buffer_is_dirty (b : Buffer) : Bool :=
  decide (b.maps ≠ [])

/-- buffer_is_fully_dirty. -/
def buffer_is_fully_dirty (b : Buffer) : Bool :=
  decide (b.maps.length = 1 ∧ (b.maps.headD (0, 0)).1 = 0
    ∧ (b.maps.headD (0, 0)).2 = b.size)

/-- wined3d_buffer_validate_location. -/
def wined3d_buffer_validate_location (b : Buffer) (location : Nat) : Buffer :=
  let b1 := if location &&& LOC_BUFFER ≠ 0 then buffer_clear_dirty_areas b else b
  { b1 with locations := b1.locations ||| location }

/-- wined3d_buffer_invalidate_range: `location` is a DWORD mask (possibly a
C complement such as ~WINED3D_LOCATION_SYSMEM). -/
def wined3d_buffer_invalidate_range (ctx : Ctx) (b : Buffer)
    (location offset size : Nat) : Buffer :=
  let b1 := if location &&& LOC_BUFFER ≠ 0 then
      buffer_invalidate_bo_range ctx b offset size
    else b
  { b1 with locations := b1.locations &&& locNot location }

/-- wined3d_buffer_invalidate_location. -/
def wined3d_buffer_invalidate_location (ctx : Ctx) (b : Buffer) (location : Nat) : Buffer :=
  wined3d_buffer_invalidate_range ctx b location 0 0

/-- Modelled from the spec: wined3d_resource_prepare_sysmem (resource.c, not
under src/); "prepare(SYSMEM) allocates host memory", idempotent, fails only
on allocation failure. Fresh allocation contents are modelled as zero. -/
def wined3d_resource_prepare_sysmem (ctx : Ctx) (b : Buffer) : Bool × Buffer :=
  if b.heap_memory.isSome then (true, b)
  else if ctx.sysmem_alloc_ok then (true, { b with heap_memory := some memZero })
  else (false, b)

/-- wined3d_buffer_evict_sysmem: drop the host copy unless pinned. The
freeing of heap memory (wined3d_resource_free_sysmem, external) is modelled
by setting `heap_memory := none`. -/
def wined3d_buffer_evict_sysmem (ctx : Ctx) (b : Buffer) : Buffer :=
  if b.pin_sysmem then b
  else
    { wined3d_buffer_invalidate_location ctx b LOC_SYSMEM with heap_memory := none }

/-- wined3d_buffer_gl_create_buffer_object: allocate and create a device BO.
The heap_alloc of the bo struct and wined3d_device_gl_create_bo are the two
failure oracles; the second failure clears WINED3D_BUFFER_USE_BO and the
dirty areas, exactly as the source does. New BO contents are modelled as
zero (unspecified in the source; no theorem reads them before a copy). -/
def wined3d_buffer_gl_create_buffer_object (ctx : Ctx) (b : Buffer) : Bool × Buffer :=
  if ¬ctx.bo_heap_alloc_ok then (false, b)
  else if ¬ctx.bo_create_ok then
    (false, buffer_clear_dirty_areas { b with flag_use_bo := false })
  else
    (true, buffer_invalidate_bo_range ctx { b with buffer_object := some memZero } 0 0)

/-- wined3d_buffer_gl_prepare_location (the device-object backend's
prepare). -/
def wined3d_buffer_gl_prepare_location (ctx : Ctx) (b : Buffer) (location : Nat) :
    Bool × Buffer :=
  if location = LOC_SYSMEM then
    wined3d_resource_prepare_sysmem ctx b
  else if location = LOC_BUFFER then
    if b.buffer_object.isSome then (true, b)
    else if ¬b.flag_use_bo then (false, b)
    else wined3d_buffer_gl_create_buffer_object ctx b
  else (false, b)

/-- wined3d_buffer_gl_unload_location for WINED3D_LOCATION_BUFFER
(wined3d_buffer_gl_destroy_buffer_object): destroy the BO if present. The
bo-user list and transform-feedback interaction mutate no state modelled
here. -/
def wined3d_buffer_gl_unload_location (b : Buffer) (location : Nat) : Buffer :=
  if location = LOC_BUFFER then
    if b.buffer_object.isSome then { b with buffer_object := none } else b
  else b

/-- fixup_d3dcolor: build the destination DWORD from zero, keeping the
alpha/green lanes and swapping the red and blue lanes, exactly as the three
OR-ed terms of the source. -/
def fixup_d3dcolor (src_color : Nat) : Nat :=
  (src_color &&& 0xff00ff00) ||| ((src_color &&& 0x00ff0000) >>> 16)
    ||| ((src_color &&& 0x000000ff) <<< 16)

/-- The per-vertex byte walk of buffer_conversion_upload's inner loop: scan
`j` across one vertex at `base`, dispatching on conversion_map[j]. CONV_NONE
and CONV_D3DCOLOR advance by sizeof(DWORD) = 4, CONV_POSITIONT by
sizeof(struct wined3d_vec4) = 16. fixup_transformed_pos operates on IEEE
floats, which a shallow Nat embedding does not model: its byte effect is
left as the identity here and no theorem depends on that branch. `fuelj`
bounds the loop (j strictly increases, so `stride` steps always suffice). -/
def convVertexAux (cmap : List ConvType) (stride : Nat) (data : Nat → Nat)
    (base : Nat) : Nat → Nat → Nat → Nat
  | _, 0, i => data i
  | j, Nat.succ f, i =>
    if j < stride then
      match cmap.getD j ConvType.CONV_NONE with
      | ConvType.CONV_NONE => convVertexAux cmap stride data base (j + 4) f i
      | ConvType.CONV_D3DCOLOR =>
          convVertexAux cmap stride
            (writeDword data (base + j) (fixup_d3dcolor (readDword data (base + j))))
            base (j + 4) f i
      | ConvType.CONV_POSITIONT => convVertexAux cmap stride data base (j + 16) f i
    else data i

/-- One converted vertex: run the byte walk from j = 0 with fuel `stride`. -/
def convVertex (cmap : List ConvType) (stride : Nat) (data : Nat → Nat)
    (base : Nat) : Nat → Nat :=
  fun i => convVertexAux cmap stride data base 0 stride i

/-- Vertex loop of buffer_conversion_upload, iteration count made explicit
(structural recursion so that the kernel can evaluate it): convert `n`
consecutive vertices starting at index `lo`. -/
def convRangeN (cmap : List ConvType) (stride : Nat) : Nat → (Nat → Nat) → Nat → Nat → Nat
  | 0, data, _, i => data i
  | Nat.succ n, data, lo, i =>
    convRangeN cmap stride n (convVertex cmap stride data (lo * stride)) (lo + 1) i

/-- Vertex loop of buffer_conversion_upload: convert vertices lo ≤ i < hi. -/
def convRange (cmap : List ConvType) (stride : Nat) (data : Nat → Nat)
    (lo hi : Nat) : Nat → Nat :=
  convRangeN cmap stride (hi - lo) data lo

/-- buffer_conversion_upload, parametric in the recursive SYSMEM loader so
that wined3d_buffer_load_location can pass its own fuelled recursion: load
SYSMEM (on failure, return silently as the source does), pin it, copy each
dirty range into a scratch buffer, convert the touched vertices
(start/stride up to min(end/stride + 1, vertex_count)), then copy the dirty
ranges to the device BO in one wined3d_context_copy_bo_address call. -/
def buffer_conversion_upload_with (loadSys : Buffer → Bool × Buffer) (ctx : Ctx)
    (b : Buffer) : Buffer :=
  match loadSys b with
  | (false, b1) => b1
  | (true, b1) =>
    let b2 := { b1 with pin_sysmem := true }
    let vertex_count := b2.size / b2.stride
    if ¬ctx.scratch_alloc_ok then b2
    else
      let heap := b2.heap_memory.getD memZero
      let cmap := b2.conversion_map.getD []
      let data := b2.maps.foldl
        (fun d r =>
          let start := r.1
          let e := start + r.2
          let d1 := memCopyRange heap d start r.2
          convRange cmap b2.stride d1 (start / b2.stride)
            (min (e / b2.stride + 1) vertex_count))
        memZero
      let newBo := memCopyRanges b2.maps data (b2.buffer_object.getD memZero)
      { b2 with buffer_object := some newBo, copies := b2.copies + 1 }

/-- The common tail of load_location's SYSMEM/BUFFER switch at
location = BUFFER: validate the location, then evict host memory for
non-dynamic buffers. -/
def loadLocTail (ctx : Ctx) (b2 : Buffer) : Bool × Buffer :=
  let b3 := wined3d_buffer_validate_location b2 LOC_BUFFER
  let b4 :=
    if b3.heap_memory.isSome ∧ ¬b3.usage_dynamic then
      wined3d_buffer_evict_sysmem ctx b3
    else b3
  (true, b4)

/-- The upload step of load_location's BUFFER case: a direct ranged copy
of the dirty ranges when no conversion is active (with the DISCARD tag on
a fully-dirty single range carrying no modelled state), else the
conversion upload. `recurse` is the SYSMEM loader of the enclosing
recursion. -/
def loadLocUpload (recurse : Buffer → Bool × Buffer) (ctx : Ctx) (b2 : Buffer) :
    Bool × Buffer :=
  if b2.conversion_map.isNone then
    loadLocTail ctx
      { b2 with
        buffer_object := some (memCopyRanges b2.maps
          (b2.heap_memory.getD memZero) (b2.buffer_object.getD memZero))
        copies := b2.copies + 1 }
  else
    loadLocTail ctx (buffer_conversion_upload_with recurse ctx b2)

/-- The BUFFER case of load_location's switch: clear through SYSMEM when
the buffer is logically cleared, then upload. -/
def loadLocBuffer (recurse : Buffer → Bool × Buffer) (ctx : Ctx) (b1 : Buffer) :
    Bool × Buffer :=
  if b1.locations &&& LOC_CLEARED ≠ 0 then
    match wined3d_resource_prepare_sysmem ctx b1 with
    | (false, b2) => (false, b2)
    | (true, b2) => loadLocUpload recurse ctx { b2 with heap_memory := some memZero }
  else loadLocUpload recurse ctx b1

/-- The SYSMEM case of load_location's switch: zero the host memory when
logically cleared, else copy the whole BO back. -/
def loadLocSysmem (b1 : Buffer) : Buffer :=
  if b1.locations &&& LOC_CLEARED ≠ 0 then
    { b1 with heap_memory := some memZero }
  else
    { b1 with
      heap_memory := some (memCopyRange (b1.buffer_object.getD memZero)
        (b1.heap_memory.getD memZero) 0 b1.size)
      copies := b1.copies + 1 }

/-- wined3d_buffer_load_location, with an explicit recursion fuel. The
source recurses in exactly two places: the empty-location recovery (which
validates DISCARDED first, so the recursive call sees a non-empty set), and
buffer_conversion_upload's load of SYSMEM; fuel 4 is never exhausted from a
top-level call. Fuel exhaustion returns failure with the buffer unchanged. -/
def loadLocationF : Nat → Ctx → Buffer → Nat → Bool × Buffer
  | 0, _, b, _ => (false, b)
  | Nat.succ fuel, ctx, b, location =>
    if b.locations &&& location ≠ 0 then (true, b)
    else if b.locations = 0 then
      loadLocationF fuel ctx (wined3d_buffer_validate_location b LOC_DISCARDED) location
    else
      match wined3d_buffer_gl_prepare_location ctx b location with
      | (false, b1) => (false, b1)
      | (true, b1) =>
        if b1.locations &&& LOC_DISCARDED ≠ 0 then
          let b2 := wined3d_buffer_validate_location b1 location
          (true, wined3d_buffer_invalidate_location ctx b2 LOC_DISCARDED)
        else if location = LOC_SYSMEM then
          (true, wined3d_buffer_validate_location (loadLocSysmem b1) location)
        else if location = LOC_BUFFER then
          loadLocBuffer (fun s => loadLocationF fuel ctx s LOC_SYSMEM) ctx b1
        else (false, b1)

/-- wined3d_buffer_load_location at the never-exhausted fuel. -/
def wined3d_buffer_load_location (ctx : Ctx) (b : Buffer) (location : Nat) :
    Bool × Buffer :=
  loadLocationF 4 ctx b location

/-- buffer_conversion_upload as a standalone entry point (same fuel). -/
def buffer_conversion_upload (ctx : Ctx) (b : Buffer) : Buffer :=
  buffer_conversion_upload_with (fun s => wined3d_buffer_load_location ctx s LOC_SYSMEM)
    ctx b

/-- wined3d_buffer_load_sysmem: load SYSMEM and pin it on success. -/
def wined3d_buffer_load_sysmem (ctx : Ctx) (b : Buffer) : Buffer :=
  match wined3d_buffer_load_location ctx b LOC_SYSMEM with
  | (true, b1) => { b1 with pin_sysmem := true }
  | (false, b1) => b1

/-- buffer_resource_unload: move the latest bytes back to SYSMEM, drop the
BO and every conversion datum. resource_unload (resource.c) mutates nothing
modelled here. -/
def buffer_resource_unload (ctx : Ctx) (b : Buffer) : Buffer :=
  if b.buffer_object.isSome then
    let b1 := (wined3d_buffer_load_location ctx b LOC_SYSMEM).2
    let b2 := wined3d_buffer_invalidate_location ctx b1 LOC_BUFFER
    let b3 := wined3d_buffer_gl_unload_location b2 LOC_BUFFER
    let b4 := buffer_clear_dirty_areas b3
    { b4 with
      conversion_map := none
      stride := 0
      conversion_stride := 0
      flag_hasdesc := false }
  else b

/-- wined3d_buffer_drop_bo: clear WINED3D_BUFFER_USE_BO, then unload. -/
def wined3d_buffer_drop_bo (ctx : Ctx) (b : Buffer) : Buffer :=
  buffer_resource_unload ctx { b with flag_use_bo := false }

/-- The vertex formats the conversion checks distinguish
(WINED3DFMT_B8G8R8A8_UNORM, WINED3DFMT_R32G32B32A32_FLOAT, anything else). -/
inductive FormatId where
  | B8G8R8A8_UNORM
  | R32G32B32A32_FLOAT
  | other
deriving DecidableEq, Repr

/-- One wined3d_stream_info_element: format (id and byte_count), stride,
the data address (kept as the byte offset the source reduces mod the
buffer's stride) and the stream index. -/
structure StreamElement where
  format_id : FormatId
  byte_count : Nat
  stride : Nat
  offset : Nat
  stream_idx : Nat

/-- The parts of wined3d_stream_info the buffer code reads. `elements` is
indexed by the fixed-function attribute index; `use_map` is the per-index
validity bitmask. -/
structure StreamInfo where
  elements : List StreamElement
  use_map : Nat
  position_transformed : Bool

/-- The parts of the draw state the buffer code reads: use_vs(state), and
whether state->streams[idx].buffer is this buffer. -/
structure DrawState where
  use_vs : Bool
  si : StreamInfo
  stream_this_buffer : Nat → Bool

/-- Element returned when the stream-info array is read out of range (the
source never does this for in-use attributes: use_map guards access). -/
def defaultElem : StreamElement := ⟨FormatId.other, 0, 0, 0, 0⟩

/-- WINED3D_BUFFER_FIXUP_D3DCOLOR. -/
def FIXUP_D3DCOLOR : Nat := 1

/-- WINED3D_BUFFER_FIXUP_XYZRHW. -/
def FIXUP_XYZRHW : Nat := 2

/-- buffer_process_converted_attribute: returns (changed, buffer,
stride_this_run). The two FIXME paths (stride 0, two concurrent strides)
mutate nothing, as in the source. The byte loop writes `conversion_type`
at each (data + i) mod stride slot, reporting a change when a slot
differed. -/
def buffer_process_converted_attribute (b : Buffer) (conversion_type : ConvType)
    (attrib : StreamElement) (stride_this_run : Nat) : Bool × Buffer × Nat :=
  let step :=
    if attrib.stride = 0 then (false, b, stride_this_run)
    else if attrib.stride ≠ stride_this_run ∧ stride_this_run ≠ 0 then
      (false, b, stride_this_run)
    else
      if b.stride ≠ attrib.stride then
        (true,
          { b with
            stride := attrib.stride
            conversion_map := some (List.replicate attrib.stride ConvType.CONV_NONE) },
          attrib.stride)
      else (false, b, attrib.stride)
  let b1 := step.2.1
  let data := attrib.offset % b1.stride
  let loop := (List.range attrib.byte_count).foldl
    (fun acc i =>
      let idx := (data + i) % b1.stride
      if acc.2.getD idx ConvType.CONV_NONE ≠ conversion_type then
        (true, acc.2.set idx conversion_type)
      else acc)
    (step.1, b1.conversion_map.getD [])
  (loop.1, { b1 with conversion_map := some loop.2 }, step.2.2)

/-- buffer_check_attribute: skip attributes not backed by this buffer, then
dispatch on the requested fixups and the element's format. -/
def buffer_check_attribute (b : Buffer) (si : StreamInfo) (ds : DrawState)
    (attrib_idx : Nat) (fixup_flags : Nat) (stride_this_run : Nat) :
    Bool × Buffer × Nat :=
  let attrib := si.elements.getD attrib_idx defaultElem
  if ¬si.use_map.testBit attrib_idx ∨ ¬ds.stream_this_buffer attrib.stream_idx then
    (false, b, stride_this_run)
  else if fixup_flags &&& FIXUP_D3DCOLOR ≠ 0 ∧ attrib.format_id = FormatId.B8G8R8A8_UNORM then
    buffer_process_converted_attribute b ConvType.CONV_D3DCOLOR attrib stride_this_run
  else if fixup_flags &&& FIXUP_XYZRHW ≠ 0 ∧ si.position_transformed then
    if attrib.format_id ≠ FormatId.R32G32B32A32_FLOAT then (false, b, stride_this_run)
    else buffer_process_converted_attribute b ConvType.CONV_POSITIONT attrib stride_this_run
  else if b.conversion_map.isSome then
    buffer_process_converted_attribute b ConvType.CONV_NONE attrib stride_this_run
  else (false, b, stride_this_run)

/-- The fixed-function attribute indices buffer_find_decl walks, in source
order: POSITION, BLENDWEIGHT, BLENDINDICES, NORMAL, DIFFUSE, SPECULAR,
TEXCOORD0..7. The numeric values mirror enum wined3d_ffp_idx
(wined3d_private.h, outside src/); only their distinctness matters. PSIZE
(index 4) is not walked, as in the source. -/
def ffpWalk : List Nat := [0, 1, 2, 3, 5, 6, 7, 8, 9, 10, 11, 12, 13, 14]

/-- buffer_find_decl: returns (declaration changed, buffer). The XYZRHW
fixup is consumed after the POSITION slot; if no converted attribute was
seen but a conversion map exists, the map is dropped. -/
def buffer_find_decl (b : Buffer) (si : StreamInfo) (ds : DrawState)
    (fixup_flags : Nat) : Bool × Buffer :=
  if b.flag_hasdesc ∧ b.usage_staticdecl then (false, b)
  else if fixup_flags = 0 then
    if b.conversion_map.isSome then
      (true, { b with conversion_map := none, stride := 0 })
    else (false, b)
  else
    let first := buffer_check_attribute b si ds 0 fixup_flags 0
    let rest := (ffpWalk.drop 1).foldl
      (fun acc idx =>
        let r := buffer_check_attribute acc.2.1 si ds idx
          (fixup_flags &&& locNot FIXUP_XYZRHW) acc.2.2
        (acc.1 || r.1, r.2))
      (first.1, first.2)
    let ret := rest.1
    let b1 := rest.2.1
    let stride_this_run := rest.2.2
    if stride_this_run = 0 ∧ b1.conversion_map.isSome then
      (ret, { b1 with conversion_map := none, stride := 0 })
    else (ret, b1)

/-- The fixup flags wined3d_buffer_load computes from the draw state and
wined3d_d3d_info before calling buffer_find_decl. -/
def load_fixup_flags (ctx : Ctx) (ds : DrawState) : Nat :=
  if ¬ds.use_vs then
    (if ¬ctx.vertex_bgra ∧ ¬ctx.ffp_generic_attributes then FIXUP_D3DCOLOR else 0)
      ||| (if ¬ctx.xyzrhw then FIXUP_XYZRHW else 0)
  else 0

/-- The clean-draw bookkeeping shared by the two decay sites of
wined3d_buffer_load: bump draw_count and reset the two counters past their
thresholds. -/
def drawDecay (b : Buffer) : Buffer :=
  let b1 := { b with draw_count := b.draw_count + 1 }
  let b2 := if b1.draw_count > VB_RESETDECLCHANGE then
      { b1 with decl_change_count := 0 } else b1
  if b2.draw_count > VB_RESETFULLCONVS then
    { b2 with full_conversion_count := 0 } else b2

/-- The state-inspection tail of wined3d_buffer_load (the source after the
PREF_STA residency step): `dc` is the (declaration changed, buffer) pair
left by buffer_find_decl, or (false, buffer) for a NULL state. Factored
out of the load orchestrator the way loadLocBuffer is factored out of
load_location. -/
def loadPostPrepare (ctx : Ctx) (dc : Bool × Buffer) : Buffer :=
  let decl_changed := dc.1
  let b2 := dc.2
  if ¬decl_changed ∧ ¬(b2.flag_hasdesc ∧ buffer_is_dirty b2) then
    drawDecay b2
  else if decl_changed then
    let b3 := { b2 with decl_change_count := b2.decl_change_count + 1, draw_count := 0 }
    if b3.decl_change_count > VB_MAXDECLCHANGES
        ∨ (b3.conversion_map.isSome ∧ b3.usage_dynamic) then
      wined3d_buffer_drop_bo ctx b3
    else
      (wined3d_buffer_load_location ctx
        (buffer_invalidate_bo_range ctx b3 0 0) LOC_BUFFER).2
  else if b2.conversion_map.isSome ∧ buffer_is_fully_dirty b2 then
    let b3 := { b2 with full_conversion_count := b2.full_conversion_count + 1 }
    if b3.full_conversion_count > VB_MAXFULLCONVERSIONS then
      wined3d_buffer_drop_bo ctx b3
    else (wined3d_buffer_load_location ctx b3 LOC_BUFFER).2
  else (wined3d_buffer_load_location ctx (drawDecay b2) LOC_BUFFER).2

/-- wined3d_buffer_load: the per-draw load orchestrator. `ds = none` is a
NULL state (preload path). -/
def wined3d_buffer_load (ctx : Ctx) (b : Buffer) (ds : Option DrawState) : Buffer :=
  if b.map_count ≠ 0 ∧ b.map_ptr then b
  else if ¬b.flag_use_bo then b
  else
    match wined3d_buffer_gl_prepare_location ctx b LOC_BUFFER with
    | (false, b1) => b1
    | (true, b1) =>
      loadPostPrepare ctx
        (match ds with
         | none => (false, b1)
         | some s =>
           let r := buffer_find_decl b1 s.si s (load_fixup_flags ctx s)
           (r.1, { r.2 with flag_hasdesc := true }))

/-- The tail of buffer_resource_sub_resource_map's device-buffer path
(the source below the wined3d_buffer_gl residency step): record the dirty
range, evict host memory on DISCARD, and on the first concurrent map pick
persistent mapping, BO drop, or pinned SYSMEM readback. Factored out of
the map entry point the way loadLocBuffer is factored out of
load_location. -/
def mapDirty (ctx : Ctx) (flags : MapFlags) (dirty_offset dirty_size : Nat)
    (b1 : Buffer) : Buffer :=
  if flags.write then
    buffer_invalidate_bo_range ctx
      (wined3d_buffer_invalidate_location ctx b1 (locNot LOC_BUFFER))
      dirty_offset dirty_size
  else b1

def mapEvict (ctx : Ctx) (flags : MapFlags) (b2 : Buffer) : Buffer :=
  if flags.discard ∧ b2.heap_memory.isSome then
    wined3d_buffer_evict_sysmem ctx b2
  else b2

def mapFirstMap (ctx : Ctx) (count : Nat) (b3 : Buffer) : Buffer :=
  if count = 1 then
    if ctx.map_ptr_aligned then { b3 with map_ptr := true }
    else
      let b5 := { b3 with map_ptr := false }
      if b5.usage_dynamic then wined3d_buffer_drop_bo ctx b5
      else
        { (wined3d_buffer_load_location ctx b5 LOC_SYSMEM).2 with
          pin_sysmem := true }
  else b3

def mapRest (ctx : Ctx) (flags : MapFlags) (dirty_offset dirty_size count : Nat)
    (b1 : Buffer) : HResult × Buffer :=
  (HResult.WINED3D_OK,
    mapFirstMap ctx count
      (mapEvict ctx flags (mapDirty ctx flags dirty_offset dirty_size b1)))

/-- buffer_resource_sub_resource_map: `box = (left, right)` of the mapped
byte range; `sub_resource_idx` is accepted unexamined (the source only
TRACEs it). The returned application pointer (base + box.left) carries no
modelled state and is omitted; wined3d_context_map_bo_address is external
and is modelled by the `map_ptr_aligned` oracle deciding the
RESOURCE_ALIGNMENT check on the pointer it returns. -/
def buffer_resource_sub_resource_map (ctx : Ctx) (b : Buffer)
    (sub_resource_idx : Nat) (box : Nat × Nat) (flags : MapFlags) :
    HResult × Buffer :=
  let _ := sub_resource_idx
  let offset := box.1
  let size := box.2 - box.1
  let b := { b with map_count := b.map_count + 1 }
  let count := b.map_count
  let dirty_offset := if flags.discard then 0 else offset
  let dirty_size := if flags.discard then 0 else size
  if (flags.write ∧ ¬(flags.nooverwrite ∨ flags.discard))
      ∨ (¬flags.write ∧ b.locations &&& LOC_SYSMEM ≠ 0)
      ∨ b.pin_sysmem ∨ ¬b.flag_use_bo then
    let b1 :=
      if b.locations &&& LOC_SYSMEM = 0 then
        (wined3d_buffer_load_location ctx b LOC_SYSMEM).2
      else b
    let b2 :=
      if flags.write then
        wined3d_buffer_invalidate_range ctx b1 (locNot LOC_SYSMEM) dirty_offset dirty_size
      else b1
    (HResult.WINED3D_OK, b2)
  else
    if flags.discard then
      match wined3d_buffer_gl_prepare_location ctx b LOC_BUFFER with
      | (false, b1) => (HResult.E_OUTOFMEMORY, b1)
      | (true, b1) => mapRest ctx flags dirty_offset dirty_size count
          (wined3d_buffer_validate_location b1 LOC_BUFFER)
    else mapRest ctx flags dirty_offset dirty_size count
      (wined3d_buffer_load_location ctx b LOC_BUFFER).2

/-- buffer_resource_sub_resource_unmap: the flush through
wined3d_context_unmap_bo_address has no modelled state beyond clearing the
dirty areas and the mapping pointer. -/
def buffer_resource_sub_resource_unmap (b : Buffer) (sub_resource_idx : Nat) :
    HResult × Buffer :=
  if sub_resource_idx ≠ 0 then (HResult.E_INVALIDARG, b)
  else if b.map_count = 0 then (HResult.WINED3D_OK, b)
  else
    let b1 := { b with map_count := b.map_count - 1 }
    if b1.map_count ≠ 0 then (HResult.WINED3D_OK, b1)
    else if ¬b1.map_ptr then (HResult.WINED3D_OK, b1)
    else (HResult.WINED3D_OK, { (buffer_clear_dirty_areas b1) with map_ptr := false })

/-- wined3d_buffer_init (creation), restricted to the checks and the state
the claims touch: zero size and misaligned constant buffers are rejected;
locations start as CLEARED, or as pinned SYSMEM for software-vp/managed
buffers; host memory is pre-allocated when SYSMEM is a location or no BO
will be used; the one-slot maps array allocation may fail. The initial-data
path is not modelled (no claim supplies initial data). -/
def wined3d_buffer_init (ctx : Ctx) (byte_width : Nat)
    (dyn staticdecl managed swvp bind_constant use_bo : Bool) :
    HResult × Option Buffer :=
  if byte_width = 0 then (HResult.E_INVALIDARG, none)
  else if bind_constant ∧ byte_width &&& 15 ≠ 0 then (HResult.E_INVALIDARG, none)
  else
    let b0 : Buffer :=
      { size := byte_width
        usage_dynamic := dyn
        usage_staticdecl := staticdecl
        locations := LOC_CLEARED
        heap_memory := none
        buffer_object := none
        maps := []
        conversion_map := none
        stride := 0
        conversion_stride := 0
        flag_hasdesc := false
        flag_use_bo := use_bo
        decl_change_count := 0
        full_conversion_count := 0
        draw_count := 0
        map_count := 0
        map_ptr := false
        pin_sysmem := false
        copies := 0 }
    let b1 := if swvp ∨ managed then
        { b0 with pin_sysmem := true, locations := LOC_SYSMEM }
      else b0
    let prep :=
      if b1.locations &&& LOC_SYSMEM ≠ 0 ∨ ¬b1.flag_use_bo then
        wined3d_resource_prepare_sysmem ctx b1
      else (true, b1)
    match prep with
    | (false, _) => (HResult.E_OUTOFMEMORY, none)
    | (true, b2) =>
      if ¬ctx.maps_alloc_ok then (HResult.E_OUTOFMEMORY, none)
      else (HResult.WINED3D_OK, some b2)

/-- wined3d_buffer_gl_init: decide WINED3D_BUFFER_USE_BO from the GL
capability bits exactly as the source does, then initialize. -/
def wined3d_buffer_gl_init (ctx : Ctx) (byte_width : Nat)
    (dyn staticdecl managed swvp bind_constant gpu_access : Bool) :
    HResult × Option Buffer :=
  let use_bo := gpu_access ∧ ctx.gl_vbo ∧ (ctx.gl_map_range ∨ ¬dyn)
  wined3d_buffer_init ctx byte_width dyn staticdecl managed swvp bind_constant use_bo

/-- struct wined3d_streaming_buffer: the underlying buffer (none until the
first prepare) and the cursor. -/
structure StreamingBuffer where
  buffer : Option Buffer
  pos : Nat

/-- wined3d_streaming_buffer_prepare: grow to
max(SB_MIN_SIZE, max(2*old, min_size)) when the current capacity is too
small, dropping the old buffer and resetting the cursor. The created buffer
is dynamic, GPU-accessible and map-writable, via the GL adapter. -/
def wined3d_streaming_buffer_prepare (ctx : Ctx) (sb : StreamingBuffer)
    (min_size : Nat) : HResult × StreamingBuffer :=
  let old_size := match sb.buffer with | some wb => wb.size | none => 0
  if sb.buffer.isSome ∧ old_size ≥ min_size then (HResult.WINED3D_OK, sb)
  else
    let size := max SB_MIN_SIZE (max (old_size * 2) min_size)
    match wined3d_buffer_gl_init ctx size true false false false false true with
    | (HResult.WINED3D_OK, some wb) => (HResult.WINED3D_OK, ⟨some wb, 0⟩)
    | (hr, _) => (hr, sb)

/-- wined3d_streaming_buffer_map. The third component of the result is
ghost output: the map flags passed to the underlying wined3d_resource_map
call (WINED3D_MAP_WRITE plus DISCARD on wrap, NOOVERWRITE otherwise), so
that theorems can speak about the flag choice; the source keeps them in a
local. On failure of the underlying map, ret_pos is not produced and the
cursor is unchanged. -/
def wined3d_streaming_buffer_map (ctx : Ctx) (sb : StreamingBuffer)
    (size stride : Nat) : HResult × Nat × MapFlags × StreamingBuffer :=
  match wined3d_streaming_buffer_prepare ctx sb size with
  | (HResult.WINED3D_OK, sb1) =>
    match sb1.buffer with
    | none => (HResult.E_OUTOFMEMORY, 0, ⟨false, false, false, false⟩, sb1)
    | some wb =>
      let pos := sb1.pos
      let align0 := pos % stride
      let align := if align0 ≠ 0 then stride - align0 else 0
      let wrapped := pos + size + align > wb.size
      let pos1 := if wrapped then 0 else pos + align
      let mflags : MapFlags := ⟨false, true, wrapped, ¬wrapped⟩
      match buffer_resource_sub_resource_map ctx wb 0 (pos1, pos1 + size) mflags with
      | (HResult.WINED3D_OK, wb1) =>
        (HResult.WINED3D_OK, pos1, mflags, ⟨some wb1, pos1 + size⟩)
      | (hr, wb1) => (hr, 0, mflags, ⟨some wb1, sb1.pos⟩)
  | (hr, sb1) => (hr, 0, ⟨false, false, false, false⟩, sb1)

/-- wined3d_streaming_buffer_unmap. -/
def wined3d_streaming_buffer_unmap (sb : StreamingBuffer) : StreamingBuffer :=
  match sb.buffer with
  | some wb => ⟨some (buffer_resource_sub_resource_unmap wb 0).2, sb.pos⟩
  | none => sb

/-- The external operations of the buffer interface, for statements that
quantify over "any subsequent operation": the migration entry point, the
per-draw load, and map/unmap. -/
inductive BufOp where
  | opLoadLocation (location : Nat)
  | opLoad (ds : Option DrawState)
  | opMap (sub_resource_idx : Nat) (box : Nat × Nat) (flags : MapFlags)
  | opUnmap (sub_resource_idx : Nat)

/-- Run one operation, discarding its status result. -/
def applyOp (ctx : Ctx) (o : BufOp) (b : Buffer) : Buffer :=
  match o with
  | BufOp.opLoadLocation location => (wined3d_buffer_load_location ctx b location).2
  | BufOp.opLoad ds => wined3d_buffer_load ctx b ds
  | BufOp.opMap idx box flags => (buffer_resource_sub_resource_map ctx b idx box flags).2
  | BufOp.opUnmap idx => (buffer_resource_sub_resource_unmap b idx).2

/-- Run a sequence of operations, each under its own context. -/
def applyOps (l : List (Ctx × BufOp)) (b : Buffer) : Buffer :=
  l.foldl (fun s p => applyOp p.1 p.2 s) b

/-- A context whose allocation oracles all succeed (the capability and
alignment bits are unconstrained by the lemmas that use this). -/
def goodAlloc (ctx : Ctx) : Prop :=
  ctx.sysmem_alloc_ok = true ∧ ctx.bo_heap_alloc_ok = true ∧ ctx.bo_create_ok = true

/-- `k` consecutive per-draw loads with a NULL state (no declaration
inspection, hence no declaration change). -/
def cleanDraws (ctx : Ctx) : Nat → Buffer → Buffer
  | 0, b => b
  | Nat.succ k, b => cleanDraws ctx k (wined3d_buffer_load ctx b none)

/-- A buffer template used by the concrete test states below: size `sz`,
static usage, freshly created state (locations = CLEARED). -/
def baseBuf (sz : Nat) : Buffer :=
  { size := sz
    usage_dynamic := false
    usage_staticdecl := false
    locations := LOC_CLEARED
    heap_memory := none
    buffer_object := none
    maps := []
    conversion_map := none
    stride := 0
    conversion_stride := 0
    flag_hasdesc := false
    flag_use_bo := false
    decl_change_count := 0
    full_conversion_count := 0
    draw_count := 0
    map_count := 0
    map_ptr := false
    pin_sysmem := false
    copies := 0 }

/-- Host bytes 44 33 22 11: the little-endian DWORD 0x11223344. -/
def mem6 : Nat → Nat := fun i =>
  if i = 0 then 0x44 else if i = 1 then 0x33 else if i = 2 then 0x22
  else if i = 3 then 0x11 else 0

/-- The S3 swizzle scenario buffer: 4 bytes holding 0x11223344 in SYSMEM,
stride 4, conversion map all CONV_D3DCOLOR, fully dirty, BO present. -/
def buf6 : Buffer :=
  { baseBuf 4 with
    locations := LOC_SYSMEM
    heap_memory := some mem6
    buffer_object := some memZero
    maps := [(0, 4)]
    conversion_map := some [ConvType.CONV_D3DCOLOR, ConvType.CONV_D3DCOLOR,
      ConvType.CONV_D3DCOLOR, ConvType.CONV_D3DCOLOR]
    stride := 4
    flag_use_bo := true }

/-- A context whose host-memory allocation fails. -/
def ctxNoSys : Ctx := { ctxOk with sysmem_alloc_ok := false }

/-- A context whose device-BO creation fails. -/
def ctxNoBo : Ctx := { ctxOk with bo_create_ok := false }

/-- A fresh 4-byte buffer with no BO use (host-only operation). -/
def buf1 : Buffer := baseBuf 4

/-- A fresh 4-byte buffer with USE_BO set but no BO created yet. -/
def buf2 : Buffer := { baseBuf 4 with flag_use_bo := true }

/-- A fresh 8-byte buffer with USE_BO set. -/
def buf2b : Buffer := { baseBuf 8 with flag_use_bo := true }

/-- A BO-resident buffer with both heuristic counters at 1 and a clean
dirty set, ready for clean draws. -/
def buf4 : Buffer :=
  { baseBuf 4 with
    flag_use_bo := true
    buffer_object := some memZero
    locations := LOC_BUFFER
    decl_change_count := 1
    full_conversion_count := 1 }

/-- A draw state binding this buffer's stream 0 to a single D3DCOLOR
position element of stride 4. -/
def ds3 : DrawState :=
  { use_vs := false
    si := { elements := [⟨FormatId.B8G8R8A8_UNORM, 4, 4, 0, 0⟩]
            use_map := 1
            position_transformed := false }
    stream_this_buffer := fun _ => true }

/-- A BO-resident buffer on the brink of the declaration-change cutoff:
decl_change_count = VB_MAXDECLCHANGES. -/
def buf3 : Buffer :=
  { baseBuf 4 with
    flag_use_bo := true
    buffer_object := some memZero
    locations := LOC_BUFFER
    decl_change_count := 100 }

/-- A device context with the FFP D3DCOLOR fixup in force (no native BGRA
attributes, no generic FFP attributes). -/
def ctxFix : Ctx := { ctxOk with vertex_bgra := false, ffp_generic_attributes := false }

/-- A dirty SYSMEM-resident buffer with a BO, no conversion. -/
def buf9 : Buffer :=
  { baseBuf 4 with
    locations := LOC_SYSMEM
    heap_memory := some mem6
    buffer_object := some memZero
    maps := [(0, 4)]
    flag_use_bo := true }

/-- A fresh streaming buffer. -/
def sb0 : StreamingBuffer := ⟨none, 0⟩

/-- Agreement on all fields that the migration machinery never writes. -/
def coreEq (b r : Buffer) : Prop :=
  r.size = b.size ∧ r.map_count = b.map_count ∧ r.map_ptr = b.map_ptr
  ∧ r.usage_dynamic = b.usage_dynamic ∧ r.usage_staticdecl = b.usage_staticdecl
  ∧ r.conversion_map = b.conversion_map ∧ r.stride = b.stride
  ∧ r.conversion_stride = b.conversion_stride
  ∧ r.flag_hasdesc = b.flag_hasdesc ∧ r.decl_change_count = b.decl_change_count
  ∧ r.full_conversion_count = b.full_conversion_count ∧ r.draw_count = b.draw_count

/-! ## Bitwise toolbox -/

/-- A number with a set bit is nonzero. -/
theorem ne_zero_of_testBit (x i : Nat) (h : Nat.testBit x i = true) : x ≠ 0 := by
  intro h0; subst h0; simp [Nat.zero_testBit] at h

/-- Testing a single-bit mask via testBit. -/
theorem and_two_pow_eq_zero_iff (x i : Nat) :
    x &&& 2 ^ i = 0 ↔ Nat.testBit x i = false := by
  have h2 := Nat.and_two_pow x i
  cases hb : Nat.testBit x i <;> rw [hb] at h2 <;> simp at h2 <;> simp [h2]

/-- Bit 0 of a location mask. -/
theorem and_bit0_iff (x : Nat) : x &&& 1 = 0 ↔ Nat.testBit x 0 = false := by
  simp

/-- Bit 1 of a location mask (LOC_SYSMEM). -/
theorem and_bit1_iff (x : Nat) : x &&& 2 = 0 ↔ Nat.testBit x 1 = false := by
  simpa using and_two_pow_eq_zero_iff x 1

/-- Bit 2 of a location mask (LOC_CLEARED). -/
theorem and_bit2_iff (x : Nat) : x &&& 4 = 0 ↔ Nat.testBit x 2 = false := by
  simpa using and_two_pow_eq_zero_iff x 2

/-- Bit 3 of a location mask (LOC_BUFFER). -/
theorem and_bit3_iff (x : Nat) : x &&& 8 = 0 ↔ Nat.testBit x 3 = false := by
  simpa using and_two_pow_eq_zero_iff x 3

/-- A well-formed nonzero location set without the BUFFER bit meets the
DISCARDED|SYSMEM|CLEARED mask. -/
theorem and_seven_ne (x : Nat) (h1 : x < 16) (h2 : x ≠ 0) (h3 : x &&& 8 = 0) :
    x &&& 7 ≠ 0 := by
  interval_cases x <;> simp_all

/-- A nonzero single-bit mask test gives the bit. -/
theorem and_bit1_ne_iff (x : Nat) : x &&& 2 ≠ 0 ↔ Nat.testBit x 1 = true := by
  rw [Ne, and_bit1_iff]
  simp

/-- A nonzero CLEARED-bit mask test gives bit 2. -/
theorem and_bit2_ne_iff (x : Nat) : x &&& 4 ≠ 0 ↔ Nat.testBit x 2 = true := by
  rw [Ne, and_bit2_iff]
  simp

/-- A nonzero BUFFER-bit mask test gives bit 3. -/
theorem and_bit3_ne_iff (x : Nat) : x &&& 8 ≠ 0 ↔ Nat.testBit x 3 = true := by
  rw [Ne, and_bit3_iff]
  simp

/-- A nonzero DISCARDED-bit mask test gives bit 0. -/
theorem and_bit0_ne_iff (x : Nat) : x &&& 1 ≠ 0 ↔ Nat.testBit x 0 = true := by
  rw [Ne, and_bit0_iff]
  simp

/-- Any low bit meets the DISCARDED|SYSMEM|CLEARED mask. -/
theorem and_seven_of_bit (x i : Nat) (hi : i < 3) (h : Nat.testBit x i = true) :
    x &&& 7 ≠ 0 := by
  apply ne_zero_of_testBit _ i
  rw [Nat.testBit_land, h]
  interval_cases i <;> decide

/-- Bitwise or of a well-formed location set stays well-formed. -/
theorem lor_lt_16 (x y : Nat) (hx : x < 16) (hy : y < 16) : x ||| y < 16 := by
  have h4 : x < 2 ^ 4 := by omega
  have h5 : y < 2 ^ 4 := by omega
  have := Nat.or_lt_two_pow h4 h5
  omega

/-- Bit patterns: zero on the three low bits means zero under mask 7. -/
theorem and_seven_zero (x : Nat) (h0 : x &&& 1 = 0) (h1 : x &&& 2 = 0)
    (h2 : x &&& 4 = 0) : x &&& 7 = 0 := by
  apply Nat.eq_of_testBit_eq
  intro i
  rw [Nat.testBit_land, Nat.zero_testBit]
  rcases i with _ | _ | _ | i
  · rw [(and_bit0_iff x).mp h0]
    rfl
  · rw [(and_bit1_iff x).mp h1]
    rfl
  · rw [(and_bit2_iff x).mp h2]
    rfl
  · have h7 : Nat.testBit 7 (i + 3) = false := by
      apply Nat.testBit_lt_two_pow
      calc (7:Nat) < 2 ^ 3 := by norm_num
        _ ≤ 2 ^ (i + 3) := Nat.pow_le_pow_right (by norm_num) (by omega)
    rw [h7, Bool.and_false]

/-! ## Backend prepare lemmas -/

theorem coreEq_refl (b : Buffer) : coreEq b b :=
  ⟨rfl, rfl, rfl, rfl, rfl, rfl, rfl, rfl, rfl, rfl, rfl, rfl⟩

theorem coreEq_trans (a b c : Buffer) (h1 : coreEq a b) (h2 : coreEq b c) : coreEq a c := by
  obtain ⟨a1, a2, a3, a4, a5, a6, a7, a8, a9, a10, a11, a12⟩ := h1
  obtain ⟨b1, b2, b3, b4, b5, b6, b7, b8, b9, b10, b11, b12⟩ := h2
  exact ⟨b1.trans a1, b2.trans a2, b3.trans a3, b4.trans a4, b5.trans a5, b6.trans a6,
    b7.trans a7, b8.trans a8, b9.trans a9, b10.trans a10, b11.trans a11, b12.trans a12⟩

/-- Everything the proofs need about the backend prepare, in one walk over
its decision tree. -/
theorem prepare_master (ctx : Ctx) (b : Buffer) (loc : Nat) :
    coreEq b (wined3d_buffer_gl_prepare_location ctx b loc).2
    ∧ ((wined3d_buffer_gl_prepare_location ctx b loc).2).pin_sysmem = b.pin_sysmem
    ∧ ((wined3d_buffer_gl_prepare_location ctx b loc).2).copies = b.copies
    ∧ ((wined3d_buffer_gl_prepare_location ctx b loc).2).locations = b.locations
    ∧ (((wined3d_buffer_gl_prepare_location ctx b loc).2).flag_use_bo = true
        → b.flag_use_bo = true)
    ∧ ((wined3d_buffer_gl_prepare_location ctx b loc).1 = true
        → loc = LOC_SYSMEM ∨ loc = LOC_BUFFER)
    ∧ (loc = LOC_SYSMEM →
        ((wined3d_buffer_gl_prepare_location ctx b loc).2).maps = b.maps
        ∧ ((wined3d_buffer_gl_prepare_location ctx b loc).2).buffer_object = b.buffer_object
        ∧ ((wined3d_buffer_gl_prepare_location ctx b loc).2).flag_use_bo = b.flag_use_bo
        ∧ (ctx.sysmem_alloc_ok = true → (wined3d_buffer_gl_prepare_location ctx b loc).1 = true))
    ∧ (loc = LOC_BUFFER →
        ((b.buffer_object.isSome = true
          ∨ (b.flag_use_bo = true ∧ ctx.bo_heap_alloc_ok = true ∧ ctx.bo_create_ok = true))
            → (wined3d_buffer_gl_prepare_location ctx b loc).1 = true)
        ∧ ((wined3d_buffer_gl_prepare_location ctx b loc).1 = true
            → ((wined3d_buffer_gl_prepare_location ctx b loc).2).buffer_object.isSome = true)) := by
  unfold wined3d_buffer_gl_prepare_location wined3d_resource_prepare_sysmem
    wined3d_buffer_gl_create_buffer_object buffer_invalidate_bo_range
    buffer_clear_dirty_areas
  by_cases h1 : loc = LOC_SYSMEM
  · rw [if_pos h1]
    by_cases h2 : b.heap_memory.isSome = true
    · rw [if_pos h2]
      exact ⟨coreEq_refl b, rfl, rfl, rfl, fun h => h, fun _ => Or.inl h1,
        fun _ => ⟨rfl, rfl, rfl, fun _ => rfl⟩,
        fun h8 => absurd (h1.symm.trans h8) (by decide)⟩
    · rw [if_neg h2]
      by_cases h3 : ctx.sysmem_alloc_ok = true
      · rw [if_pos h3]
        exact ⟨⟨rfl, rfl, rfl, rfl, rfl, rfl, rfl, rfl, rfl, rfl, rfl, rfl⟩, rfl, rfl, rfl,
          fun h => h, fun _ => Or.inl h1,
          fun _ => ⟨rfl, rfl, rfl, fun _ => rfl⟩,
          fun h8 => absurd (h1.symm.trans h8) (by decide)⟩
      · rw [if_neg h3]
        exact ⟨coreEq_refl b, rfl, rfl, rfl, fun h => h, fun _ => Or.inl h1,
          fun _ => ⟨rfl, rfl, rfl, fun ha => absurd ha h3⟩,
          fun h8 => absurd (h1.symm.trans h8) (by decide)⟩
  · rw [if_neg h1]
    by_cases h8 : loc = LOC_BUFFER
    · rw [if_pos h8]
      by_cases h4 : b.buffer_object.isSome = true
      · rw [if_pos h4]
        exact ⟨coreEq_refl b, rfl, rfl, rfl, fun h => h, fun _ => Or.inr h8,
          fun h2 => absurd (h8.symm.trans h2) (by decide),
          fun _ => ⟨fun _ => rfl, fun _ => h4⟩⟩
      · rw [if_neg h4]
        by_cases h5 : ¬b.flag_use_bo = true
        · rw [if_pos h5]
          refine ⟨coreEq_refl b, rfl, rfl, rfl, fun h => h, by simp,
            fun h2 => absurd (h8.symm.trans h2) (by decide),
            fun _ => ⟨?_, by simp⟩⟩
          rintro (hc | ⟨hc, _⟩)
          · exact absurd hc h4
          · exact absurd hc h5
        · rw [if_neg h5]
          by_cases h6 : ¬ctx.bo_heap_alloc_ok = true
          · rw [if_pos h6]
            refine ⟨coreEq_refl b, rfl, rfl, rfl, fun h => h, by simp,
              fun h2 => absurd (h8.symm.trans h2) (by decide),
              fun _ => ⟨?_, by simp⟩⟩
            rintro (hc | ⟨_, hc, _⟩)
            · exact absurd hc h4
            · exact absurd hc h6
          · rw [if_neg h6]
            by_cases h7 : ¬ctx.bo_create_ok = true
            · rw [if_pos h7]
              refine ⟨⟨rfl, rfl, rfl, rfl, rfl, rfl, rfl, rfl, rfl, rfl, rfl, rfl⟩,
                rfl, rfl, rfl, by simp, by simp,
                fun h2 => absurd (h8.symm.trans h2) (by decide),
                fun _ => ⟨?_, by simp⟩⟩
              rintro (hc | ⟨_, _, hc⟩)
              · exact absurd hc h4
              · exact absurd hc h7
            · rw [if_neg h7]
              rw [if_pos (by exact ⟨rfl, Or.inl rfl⟩)]
              exact ⟨⟨rfl, rfl, rfl, rfl, rfl, rfl, rfl, rfl, rfl, rfl, rfl, rfl⟩,
                rfl, rfl, rfl, fun _ => by simpa using h5, fun _ => Or.inr h8,
                fun h2 => absurd (h8.symm.trans h2) (by decide),
                fun _ => ⟨fun _ => rfl, fun _ => rfl⟩⟩
    · rw [if_neg h8]
      exact ⟨coreEq_refl b, rfl, rfl, rfl, fun h => h, by simp,
        fun h2 => absurd h2 h1, fun hb => absurd hb h8⟩

/-- validate_location: union the bit in, clearing the dirty ranges when the
mask covers BUFFER. -/
theorem validate_master (b : Buffer) (loc : Nat) :
    coreEq b (wined3d_buffer_validate_location b loc)
    ∧ (wined3d_buffer_validate_location b loc).locations = b.locations ||| loc
    ∧ (wined3d_buffer_validate_location b loc).pin_sysmem = b.pin_sysmem
    ∧ (wined3d_buffer_validate_location b loc).copies = b.copies
    ∧ (wined3d_buffer_validate_location b loc).heap_memory = b.heap_memory
    ∧ (wined3d_buffer_validate_location b loc).buffer_object = b.buffer_object
    ∧ (wined3d_buffer_validate_location b loc).flag_use_bo = b.flag_use_bo
    ∧ (wined3d_buffer_validate_location b loc).maps
        = (if loc &&& LOC_BUFFER ≠ 0 then [] else b.maps) := by
  unfold wined3d_buffer_validate_location buffer_clear_dirty_areas
  by_cases h : loc &&& LOC_BUFFER ≠ 0
  · rw [if_pos h, if_pos h]
    exact ⟨coreEq_refl b, rfl, rfl, rfl, rfl, rfl, rfl, rfl⟩
  · rw [if_neg h, if_neg h]
    exact ⟨coreEq_refl b, rfl, rfl, rfl, rfl, rfl, rfl, rfl⟩

/-- invalidate_range: clear the bits of the mask, recording a BO dirty
range when the mask covers BUFFER. -/
theorem invalidate_master (ctx : Ctx) (b : Buffer) (m off sz : Nat) :
    coreEq b (wined3d_buffer_invalidate_range ctx b m off sz)
    ∧ (wined3d_buffer_invalidate_range ctx b m off sz).locations
        = b.locations &&& locNot m
    ∧ (wined3d_buffer_invalidate_range ctx b m off sz).pin_sysmem = b.pin_sysmem
    ∧ (wined3d_buffer_invalidate_range ctx b m off sz).copies = b.copies
    ∧ (wined3d_buffer_invalidate_range ctx b m off sz).heap_memory = b.heap_memory
    ∧ (wined3d_buffer_invalidate_range ctx b m off sz).buffer_object = b.buffer_object
    ∧ (wined3d_buffer_invalidate_range ctx b m off sz).flag_use_bo = b.flag_use_bo
    ∧ (m &&& LOC_BUFFER = 0 → (wined3d_buffer_invalidate_range ctx b m off sz).maps = b.maps)
    ∧ (m &&& LOC_BUFFER ≠ 0 → off = 0 → sz = 0 →
        (wined3d_buffer_invalidate_range ctx b m off sz).maps = [(0, b.size)]) := by
  unfold wined3d_buffer_invalidate_range buffer_invalidate_bo_range
  by_cases h : m &&& LOC_BUFFER ≠ 0
  · rw [if_pos h]
    by_cases hc : off = 0 ∧ (sz = 0 ∨ sz = b.size)
    · rw [if_pos hc]
      exact ⟨coreEq_refl b, rfl, rfl, rfl, rfl, rfl, rfl, fun hm => absurd h (by simp [hm]),
        fun _ _ _ => rfl⟩
    · rw [if_neg hc]
      refine ⟨?_, ?_, ?_, ?_, ?_, ?_, ?_, fun hm => absurd h (by simp [hm]),
        fun _ h0 hs => absurd ⟨h0, Or.inl hs⟩ hc⟩ <;>
        split <;> first
          | exact coreEq_refl b
          | rfl
          | (split <;> first | exact coreEq_refl b | rfl)
  · rw [if_neg h]
    exact ⟨coreEq_refl b, rfl, rfl, rfl, rfl, rfl, rfl, fun _ => rfl,
      fun hm => absurd hm (by simp_all)⟩

/-- evict_sysmem: drop the host copy (and the SYSMEM location) unless
pinned. -/
theorem evict_master (ctx : Ctx) (b : Buffer) :
    coreEq b (wined3d_buffer_evict_sysmem ctx b)
    ∧ (wined3d_buffer_evict_sysmem ctx b).pin_sysmem = b.pin_sysmem
    ∧ (wined3d_buffer_evict_sysmem ctx b).copies = b.copies
    ∧ (wined3d_buffer_evict_sysmem ctx b).buffer_object = b.buffer_object
    ∧ (wined3d_buffer_evict_sysmem ctx b).flag_use_bo = b.flag_use_bo
    ∧ (wined3d_buffer_evict_sysmem ctx b).maps = b.maps
    ∧ (wined3d_buffer_evict_sysmem ctx b).locations
        = (if b.pin_sysmem then b.locations else b.locations &&& locNot LOC_SYSMEM) := by
  unfold wined3d_buffer_evict_sysmem wined3d_buffer_invalidate_location
  obtain ⟨c1, c2, _, _, _, _, c7, h0, _⟩ :=
    invalidate_master ctx b LOC_SYSMEM 0 0
  by_cases h : b.pin_sysmem = true
  · rw [if_pos h]
    exact ⟨coreEq_refl b, rfl, rfl, rfl, rfl, rfl, by rw [if_pos h]⟩
  · rw [if_neg h]
    refine ⟨c1, ?_, ?_, ?_, ?_, ?_, ?_⟩
    · exact (invalidate_master ctx b LOC_SYSMEM 0 0).2.2.1
    · exact (invalidate_master ctx b LOC_SYSMEM 0 0).2.2.2.1
    · exact (invalidate_master ctx b LOC_SYSMEM 0 0).2.2.2.2.2.1
    · exact (invalidate_master ctx b LOC_SYSMEM 0 0).2.2.2.2.2.2.1
    · exact h0 (by decide)
    · rw [if_neg h]; exact c2

/-- loadLocSysmem: repopulate host memory; a backend copy only happens when
the buffer is not logically cleared. -/
theorem loadLocSysmem_master (b1 : Buffer) :
    coreEq b1 (loadLocSysmem b1)
    ∧ (loadLocSysmem b1).locations = b1.locations
    ∧ (loadLocSysmem b1).pin_sysmem = b1.pin_sysmem
    ∧ (loadLocSysmem b1).buffer_object = b1.buffer_object
    ∧ (loadLocSysmem b1).flag_use_bo = b1.flag_use_bo
    ∧ (loadLocSysmem b1).maps = b1.maps
    ∧ (loadLocSysmem b1).copies ≤ b1.copies + 1
    ∧ (b1.locations &&& LOC_CLEARED ≠ 0 → (loadLocSysmem b1).copies = b1.copies) := by
  unfold loadLocSysmem
  by_cases h : b1.locations &&& LOC_CLEARED ≠ 0
  · rw [if_pos h]
    exact ⟨coreEq_refl b1, rfl, rfl, rfl, rfl, rfl, Nat.le_succ _, fun _ => rfl⟩
  · rw [if_neg h]
    exact ⟨coreEq_refl b1, rfl, rfl, rfl, rfl, rfl, Nat.le_refl _, fun hc => absurd hc h⟩

/-- loadLocTail: always succeeds, validates BUFFER (clearing the dirty
ranges) and evicts host memory only for non-dynamic unpinned buffers. -/
theorem loadLocTail_master (ctx : Ctx) (b2 : Buffer) :
    (loadLocTail ctx b2).1 = true
    ∧ coreEq b2 (loadLocTail ctx b2).2
    ∧ ((loadLocTail ctx b2).2).copies = b2.copies
    ∧ ((loadLocTail ctx b2).2).pin_sysmem = b2.pin_sysmem
    ∧ ((loadLocTail ctx b2).2).buffer_object = b2.buffer_object
    ∧ ((loadLocTail ctx b2).2).flag_use_bo = b2.flag_use_bo
    ∧ ((loadLocTail ctx b2).2).maps = []
    ∧ Nat.testBit ((loadLocTail ctx b2).2).locations 3 = true := by
  unfold loadLocTail
  dsimp only
  obtain ⟨v1, v2, v3, v4, v5, v6, v7, v8⟩ := validate_master b2 LOC_BUFFER
  set bv := wined3d_buffer_validate_location b2 LOC_BUFFER with hbv
  obtain ⟨e1, e2, e3, e4, e5, e6, e7⟩ := evict_master ctx bv
  by_cases h : bv.heap_memory.isSome = true ∧ ¬bv.usage_dynamic = true
  · rw [if_pos h]
    refine ⟨rfl, coreEq_trans _ _ _ v1 e1, e3.trans v4, e2.trans v3, e4.trans v6,
      e5.trans v7, by rw [e6, v8, if_pos (by decide)], ?_⟩
    rw [e7]
    by_cases hp : bv.pin_sysmem = true
    · rw [if_pos hp, v2]
      simp [Nat.testBit_lor, show Nat.testBit LOC_BUFFER 3 = true by decide]
    · rw [if_neg hp, v2]
      simp [Nat.testBit_land, Nat.testBit_lor,
        show Nat.testBit LOC_BUFFER 3 = true by decide,
        show Nat.testBit (locNot LOC_SYSMEM) 3 = true by decide]
  · rw [if_neg h]
    refine ⟨rfl, v1, v4, v3, v6, v7, by rw [v8, if_pos (by decide)], ?_⟩
    rw [v2]
    simp [Nat.testBit_lor, show Nat.testBit LOC_BUFFER 3 = true by decide]

/-- wined3d_resource_prepare_sysmem touches only heap_memory, and succeeds
whenever host memory exists or the allocation oracle succeeds. -/
theorem prep_sys_master (ctx : Ctx) (b : Buffer) :
    coreEq b (wined3d_resource_prepare_sysmem ctx b).2
    ∧ ((wined3d_resource_prepare_sysmem ctx b).2).locations = b.locations
    ∧ ((wined3d_resource_prepare_sysmem ctx b).2).maps = b.maps
    ∧ ((wined3d_resource_prepare_sysmem ctx b).2).buffer_object = b.buffer_object
    ∧ ((wined3d_resource_prepare_sysmem ctx b).2).flag_use_bo = b.flag_use_bo
    ∧ ((wined3d_resource_prepare_sysmem ctx b).2).pin_sysmem = b.pin_sysmem
    ∧ ((wined3d_resource_prepare_sysmem ctx b).2).copies = b.copies
    ∧ (ctx.sysmem_alloc_ok = true → (wined3d_resource_prepare_sysmem ctx b).1 = true) := by
  unfold wined3d_resource_prepare_sysmem
  by_cases h1 : b.heap_memory.isSome = true
  · rw [if_pos h1]
    exact ⟨coreEq_refl b, rfl, rfl, rfl, rfl, rfl, rfl, fun _ => rfl⟩
  · rw [if_neg h1]
    by_cases h2 : ctx.sysmem_alloc_ok = true
    · rw [if_pos h2]
      exact ⟨⟨rfl, rfl, rfl, rfl, rfl, rfl, rfl, rfl, rfl, rfl, rfl, rfl⟩,
        rfl, rfl, rfl, rfl, rfl, rfl, fun _ => rfl⟩
    · rw [if_neg h2]
      exact ⟨coreEq_refl b, rfl, rfl, rfl, rfl, rfl, rfl, fun hc => absurd hc h2⟩

/-- The conversion upload, given that the SYSMEM loader it recurses
through preserves the core fields, USE_BO, and (on a cheap location set)
the copy count. -/
theorem conv_upload_master (rec : Buffer → Bool × Buffer) (ctx : Ctx) (b : Buffer)
    (hrc : ∀ s, coreEq s (rec s).2)
    (hru : ∀ s, ((rec s).2).flag_use_bo = s.flag_use_bo)
    (hrm : ∀ s, ((rec s).2).maps = s.maps)
    (hrcop : ∀ s, s.locations &&& 7 ≠ 0 → ((rec s).2).copies = s.copies) :
    coreEq b (buffer_conversion_upload_with rec ctx b)
    ∧ (buffer_conversion_upload_with rec ctx b).flag_use_bo = b.flag_use_bo
    ∧ (buffer_conversion_upload_with rec ctx b).maps = b.maps
    ∧ (b.locations &&& 7 ≠ 0 →
        (buffer_conversion_upload_with rec ctx b).copies ≤ b.copies + 1) := by
  unfold buffer_conversion_upload_with
  rcases hR : rec b with ⟨st, bs⟩
  have hc := hrc b
  have hu := hru b
  have hm := hrm b
  rw [hR] at hc hu hm
  cases st
  · dsimp only
    exact ⟨hc, hu, hm, fun h7 => by
      have h9 := hrcop b h7
      rw [hR] at h9
      dsimp only at h9
      omega⟩
  · dsimp only
    by_cases hs : ¬ctx.scratch_alloc_ok = true
    · rw [if_pos hs]
      refine ⟨?_, hu, hm, fun h7 => ?_⟩
      · exact coreEq_trans _ _ _ hc ⟨rfl, rfl, rfl, rfl, rfl, rfl, rfl, rfl, rfl, rfl, rfl, rfl⟩
      · have h9 := hrcop b h7
        rw [hR] at h9
        dsimp only at h9 ⊢
        omega
    · rw [if_neg hs]
      refine ⟨?_, hu, hm, fun h7 => ?_⟩
      · exact coreEq_trans _ _ _ hc ⟨rfl, rfl, rfl, rfl, rfl, rfl, rfl, rfl, rfl, rfl, rfl, rfl⟩
      · have h9 := hrcop b h7
        rw [hR] at h9
        dsimp only at h9 ⊢
        omega

/-- The upload step of the BUFFER case always succeeds, keeps the core
fields and USE_BO, marks BUFFER valid and clears the dirty ranges; on a
cheap location set it performs at most one backend copy. -/
theorem loadLocUpload_master (rec : Buffer → Bool × Buffer) (ctx : Ctx) (b2 : Buffer)
    (hrc : ∀ s, coreEq s (rec s).2)
    (hru : ∀ s, ((rec s).2).flag_use_bo = s.flag_use_bo)
    (hrm : ∀ s, ((rec s).2).maps = s.maps)
    (hrcop : ∀ s, s.locations &&& 7 ≠ 0 → ((rec s).2).copies = s.copies) :
    (loadLocUpload rec ctx b2).1 = true
    ∧ coreEq b2 (loadLocUpload rec ctx b2).2
    ∧ ((loadLocUpload rec ctx b2).2).flag_use_bo = b2.flag_use_bo
    ∧ Nat.testBit ((loadLocUpload rec ctx b2).2).locations 3 = true
    ∧ ((loadLocUpload rec ctx b2).2).maps = []
    ∧ (b2.locations &&& 7 ≠ 0 →
        ((loadLocUpload rec ctx b2).2).copies ≤ b2.copies + 1) := by
  unfold loadLocUpload
  by_cases h : b2.conversion_map.isNone = true
  · rw [if_pos h]
    obtain ⟨t1, t2, t3, t4, t5, t6, t7, t8⟩ := loadLocTail_master ctx
      { b2 with
        buffer_object := some (memCopyRanges b2.maps
          (b2.heap_memory.getD memZero) (b2.buffer_object.getD memZero))
        copies := b2.copies + 1 }
    refine ⟨t1, coreEq_trans _ _ _ ?_ t2, ?_, t8, t7, fun _ => ?_⟩
    · exact ⟨rfl, rfl, rfl, rfl, rfl, rfl, rfl, rfl, rfl, rfl, rfl, rfl⟩
    · rw [t6]
    · rw [t3]
  · rw [if_neg h]
    obtain ⟨c1, c2, c3, c4⟩ := conv_upload_master rec ctx b2 hrc hru hrm hrcop
    obtain ⟨t1, t2, t3, t4, t5, t6, t7, t8⟩ := loadLocTail_master ctx
      (buffer_conversion_upload_with rec ctx b2)
    refine ⟨t1, coreEq_trans _ _ _ c1 t2, ?_, t8, t7, fun h7 => ?_⟩
    · rw [t6, c2]
    · rw [t3]
      exact c4 h7

/-- The BUFFER case of load_location: core fields and USE_BO are kept; on
success BUFFER becomes valid; on failure the location set is untouched;
with a successful host allocation it cannot fail; at most one backend copy
happens on a cheap location set. -/
theorem loadLocBuffer_master (rec : Buffer → Bool × Buffer) (ctx : Ctx) (b1 : Buffer)
    (hrc : ∀ s, coreEq s (rec s).2)
    (hru : ∀ s, ((rec s).2).flag_use_bo = s.flag_use_bo)
    (hrm : ∀ s, ((rec s).2).maps = s.maps)
    (hrcop : ∀ s, s.locations &&& 7 ≠ 0 → ((rec s).2).copies = s.copies) :
    coreEq b1 (loadLocBuffer rec ctx b1).2
    ∧ ((loadLocBuffer rec ctx b1).2).flag_use_bo = b1.flag_use_bo
    ∧ ((loadLocBuffer rec ctx b1).1 = true →
        Nat.testBit ((loadLocBuffer rec ctx b1).2).locations 3 = true)
    ∧ ((loadLocBuffer rec ctx b1).1 = false →
        ((loadLocBuffer rec ctx b1).2).locations = b1.locations)
    ∧ (ctx.sysmem_alloc_ok = true → (loadLocBuffer rec ctx b1).1 = true)
    ∧ (b1.locations &&& 7 ≠ 0 →
        ((loadLocBuffer rec ctx b1).2).copies ≤ b1.copies + 1) := by
  unfold loadLocBuffer
  by_cases h : b1.locations &&& LOC_CLEARED ≠ 0
  · rw [if_pos h]
    obtain ⟨p1, p2, p3, p4, p5, p6, p7, p8⟩ := prep_sys_master ctx b1
    rcases hP : wined3d_resource_prepare_sysmem ctx b1 with ⟨st, bp⟩
    rw [hP] at p1 p2 p3 p4 p5 p6 p7 p8
    cases st
    · dsimp only
      exact ⟨p1, p5, fun hc => by simp at hc, fun _ => p2, fun ha => absurd (p8 ha) (by simp),
        fun _ => by dsimp only at p7; omega⟩
    · dsimp only
      obtain ⟨u1, u2, u3, u4, u5, u6⟩ := loadLocUpload_master rec ctx
        { bp with heap_memory := some memZero } hrc hru hrm hrcop
      refine ⟨coreEq_trans _ _ _ ?_ u2, ?_, fun _ => u4, fun hf => absurd (hf.symm.trans u1) (by simp),
        fun _ => u1, fun h7 => ?_⟩
      · exact coreEq_trans _ _ _ p1 ⟨rfl, rfl, rfl, rfl, rfl, rfl, rfl, rfl, rfl, rfl, rfl, rfl⟩
      · rw [u3]
        dsimp only
        exact p5
      · have h7p : ({ bp with heap_memory := some memZero } : Buffer).locations &&& 7 ≠ 0 := by
          show bp.locations &&& 7 ≠ 0
          have hl : bp.locations = b1.locations := p2
          rw [hl]
          exact and_seven_of_bit _ 2 (by norm_num) ((and_bit2_ne_iff _).mp h)
        have h9 := u6 h7p
        dsimp only at h9
        have hcp : bp.copies = b1.copies := p7
        omega
  · rw [if_neg h]
    obtain ⟨u1, u2, u3, u4, u5, u6⟩ := loadLocUpload_master rec ctx b1 hrc hru hrm hrcop
    exact ⟨u2, u3, fun _ => u4, fun hf => absurd (hf.symm.trans u1) (by simp),
      fun _ => u1, u6⟩

/-! ## Branch characterizations of loadLocationF -/

/-- Defining equation of loadLocationF at a successor fuel. -/
theorem loadF_succ (fuel : Nat) (ctx : Ctx) (b : Buffer) (location : Nat) :
    loadLocationF (Nat.succ fuel) ctx b location =
    (if b.locations &&& location ≠ 0 then (true, b)
    else if b.locations = 0 then
      loadLocationF fuel ctx (wined3d_buffer_validate_location b LOC_DISCARDED) location
    else
      match wined3d_buffer_gl_prepare_location ctx b location with
      | (false, b1) => (false, b1)
      | (true, b1) =>
        if b1.locations &&& LOC_DISCARDED ≠ 0 then
          (true, wined3d_buffer_invalidate_location ctx
            (wined3d_buffer_validate_location b1 location) LOC_DISCARDED)
        else if location = LOC_SYSMEM then
          (true, wined3d_buffer_validate_location (loadLocSysmem b1) location)
        else if location = LOC_BUFFER then
          loadLocBuffer (fun s => loadLocationF fuel ctx s LOC_SYSMEM) ctx b1
        else (false, b1)) := rfl

/-- load_location on an already-valid location is a successful no-op. -/
theorem loadF_mem (fuel : Nat) (ctx : Ctx) (b : Buffer) (loc : Nat)
    (h : b.locations &&& loc ≠ 0) :
    loadLocationF (Nat.succ fuel) ctx b loc = (true, b) := by
  rw [loadF_succ, if_pos h]

/-- load_location on an empty location set recovers through DISCARDED. -/
theorem loadF_empty (fuel : Nat) (ctx : Ctx) (b : Buffer) (loc : Nat)
    (hm : b.locations &&& loc = 0) (he : b.locations = 0) :
    loadLocationF (Nat.succ fuel) ctx b loc
      = loadLocationF fuel ctx (wined3d_buffer_validate_location b LOC_DISCARDED) loc := by
  rw [loadF_succ, if_neg (fun hc => hc hm), if_pos he]

/-- load_location fails when the backend cannot prepare the location. -/
theorem loadF_prep_fail (fuel : Nat) (ctx : Ctx) (b : Buffer) (loc : Nat) (b1 : Buffer)
    (hm : b.locations &&& loc = 0) (hne : ¬b.locations = 0)
    (hP : wined3d_buffer_gl_prepare_location ctx b loc = (false, b1)) :
    loadLocationF (Nat.succ fuel) ctx b loc = (false, b1) := by
  rw [loadF_succ, if_neg (fun hc => hc hm), if_neg hne, hP]

/-- load_location from a DISCARDED buffer validates the target and drops
DISCARDED without copying. -/
theorem loadF_disc (fuel : Nat) (ctx : Ctx) (b : Buffer) (loc : Nat) (b1 : Buffer)
    (hm : b.locations &&& loc = 0) (hne : ¬b.locations = 0)
    (hP : wined3d_buffer_gl_prepare_location ctx b loc = (true, b1))
    (hd : b1.locations &&& LOC_DISCARDED ≠ 0) :
    loadLocationF (Nat.succ fuel) ctx b loc
      = (true, wined3d_buffer_invalidate_location ctx
          (wined3d_buffer_validate_location b1 loc) LOC_DISCARDED) := by
  rw [loadF_succ, if_neg (fun hc => hc hm), if_neg hne, hP]
  dsimp only
  rw [if_pos hd]

/-- The SYSMEM case of load_location's switch. -/
theorem loadF_sys (fuel : Nat) (ctx : Ctx) (b : Buffer) (b1 : Buffer)
    (hm : b.locations &&& LOC_SYSMEM = 0) (hne : ¬b.locations = 0)
    (hP : wined3d_buffer_gl_prepare_location ctx b LOC_SYSMEM = (true, b1))
    (hd : b1.locations &&& LOC_DISCARDED = 0) :
    loadLocationF (Nat.succ fuel) ctx b LOC_SYSMEM
      = (true, wined3d_buffer_validate_location (loadLocSysmem b1) LOC_SYSMEM) := by
  rw [loadF_succ, if_neg (fun hc => hc hm), if_neg hne, hP]
  dsimp only
  rw [if_neg (fun hc => hc hd), if_pos rfl]

/-- The BUFFER case of load_location's switch. -/
theorem loadF_buf (fuel : Nat) (ctx : Ctx) (b : Buffer) (b1 : Buffer)
    (hm : b.locations &&& LOC_BUFFER = 0) (hne : ¬b.locations = 0)
    (hP : wined3d_buffer_gl_prepare_location ctx b LOC_BUFFER = (true, b1))
    (hd : b1.locations &&& LOC_DISCARDED = 0) :
    loadLocationF (Nat.succ fuel) ctx b LOC_BUFFER
      = loadLocBuffer (fun s => loadLocationF fuel ctx s LOC_SYSMEM) ctx b1 := by
  rw [loadF_succ, if_neg (fun hc => hc hm), if_neg hne, hP]
  dsimp only
  rw [if_neg (fun hc => hc hd), if_neg (by decide), if_pos rfl]

/-- load_location on an invalid location fails after prepare. -/
theorem loadF_other (fuel : Nat) (ctx : Ctx) (b : Buffer) (loc : Nat) (b1 : Buffer)
    (hm : b.locations &&& loc = 0) (hne : ¬b.locations = 0)
    (hP : wined3d_buffer_gl_prepare_location ctx b loc = (true, b1))
    (hd : b1.locations &&& LOC_DISCARDED = 0)
    (h2 : loc ≠ LOC_SYSMEM) (h8 : loc ≠ LOC_BUFFER) :
    loadLocationF (Nat.succ fuel) ctx b loc = (false, b1) := by
  rw [loadF_succ, if_neg (fun hc => hc hm), if_neg hne, hP]
  dsimp only
  rw [if_neg (fun hc => hc hd), if_neg h2, if_neg h8]

/-! ## Induction lemmas for load_location -/

/-- load_location at SYSMEM: keeps the core fields, the dirty ranges, the
pin, the BO and USE_BO; performs at most one backend copy, and none at all
when the location set meets DISCARDED|SYSMEM|CLEARED or is empty. -/
theorem loadF_sys_master (fuel : Nat) : ∀ (ctx : Ctx) (b : Buffer),
    coreEq b (loadLocationF fuel ctx b LOC_SYSMEM).2
    ∧ ((loadLocationF fuel ctx b LOC_SYSMEM).2).maps = b.maps
    ∧ ((loadLocationF fuel ctx b LOC_SYSMEM).2).pin_sysmem = b.pin_sysmem
    ∧ ((loadLocationF fuel ctx b LOC_SYSMEM).2).buffer_object = b.buffer_object
    ∧ ((loadLocationF fuel ctx b LOC_SYSMEM).2).flag_use_bo = b.flag_use_bo
    ∧ ((loadLocationF fuel ctx b LOC_SYSMEM).2).copies ≤ b.copies + 1
    ∧ ((b.locations &&& 7 ≠ 0 ∨ b.locations = 0) →
        ((loadLocationF fuel ctx b LOC_SYSMEM).2).copies = b.copies) := by
  induction fuel with
  | zero =>
    intro ctx b
    exact ⟨coreEq_refl b, rfl, rfl, rfl, rfl, Nat.le_succ _, fun _ => rfl⟩
  | succ n ih =>
    intro ctx b
    by_cases hm : b.locations &&& LOC_SYSMEM ≠ 0
    · rw [loadF_mem n ctx b LOC_SYSMEM hm]
      exact ⟨coreEq_refl b, rfl, rfl, rfl, rfl, Nat.le_succ _, fun _ => rfl⟩
    · push_neg at hm
      by_cases he : b.locations = 0
      · rw [loadF_empty n ctx b LOC_SYSMEM hm he]
        obtain ⟨v1, v2, v3, v4, v5, v6, v7, v8⟩ := validate_master b LOC_DISCARDED
        set bv := wined3d_buffer_validate_location b LOC_DISCARDED with hbv
        obtain ⟨i1, i2, i3, i4, i5, i6, i7⟩ := ih ctx bv
        have hv7 : bv.locations &&& 7 ≠ 0 := by
          rw [v2, he]
          decide
        refine ⟨coreEq_trans _ _ _ v1 i1, ?_, ?_, ?_, ?_, ?_, fun _ => ?_⟩
        · rw [i2, v8, if_neg (by decide)]
        · rw [i3, v3]
        · rw [i4, v6]
        · rw [i5, v7]
        · have h9 := i7 (Or.inl hv7)
          rw [h9, v4]
          exact Nat.le_succ _
        · rw [i7 (Or.inl hv7), v4]
      · rcases hP : wined3d_buffer_gl_prepare_location ctx b LOC_SYSMEM with ⟨st, b1⟩
        obtain ⟨p1, p2, p3, p4, p5, p6, p7, p8⟩ := prepare_master ctx b LOC_SYSMEM
        obtain ⟨ps1, ps2, ps3, ps4⟩ := p7 rfl
        rw [hP] at p1 p2 p3 p4 ps1 ps2 ps3
        cases st
        · rw [loadF_prep_fail n ctx b LOC_SYSMEM b1 hm he hP]
          exact ⟨p1, ps1, p2, ps2, ps3, by dsimp only at p3 ⊢; omega, fun _ => p3⟩
        · by_cases hd : b1.locations &&& LOC_DISCARDED ≠ 0
          · rw [loadF_disc n ctx b LOC_SYSMEM b1 hm he hP hd]
            unfold wined3d_buffer_invalidate_location
            obtain ⟨v1, v2, v3, v4, v5, v6, v7, v8⟩ := validate_master b1 LOC_SYSMEM
            set bw := wined3d_buffer_validate_location b1 LOC_SYSMEM with hbw
            obtain ⟨j1, j2, j3, j4, j5, j6, j7, j8, j9⟩ :=
              invalidate_master ctx bw LOC_DISCARDED 0 0
            refine ⟨?_, ?_, ?_, ?_, ?_, ?_, fun _ => ?_⟩
            · exact coreEq_trans _ _ _ p1 (coreEq_trans _ _ _ v1 j1)
            · rw [j8 (by decide), v8, if_neg (by decide)]
              exact ps1
            · rw [j3, v3]
              exact p2
            · rw [j6, v6]
              exact ps2
            · rw [j7, v7]
              exact ps3
            · rw [j4, v4]
              dsimp only at p3
              omega
            · rw [j4, v4]
              exact p3
          · push_neg at hd
            rw [loadF_sys n ctx b b1 hm he hP hd]
            obtain ⟨s1, s2, s3, s4, s5, s6, s7, s8⟩ := loadLocSysmem_master b1
            obtain ⟨v1, v2, v3, v4, v5, v6, v7, v8⟩ :=
              validate_master (loadLocSysmem b1) LOC_SYSMEM
            have hb1loc : b1.locations = b.locations := p4
            refine ⟨?_, ?_, ?_, ?_, ?_, ?_, fun h7 => ?_⟩
            · exact coreEq_trans _ _ _ p1 (coreEq_trans _ _ _ s1 v1)
            · rw [v8, if_neg (by decide), s6]
              exact ps1
            · rw [v3, s3]
              exact p2
            · rw [v6, s4]
              exact ps2
            · rw [v7, s5]
              exact ps3
            · rw [v4]
              dsimp only at p3
              omega
            · rcases h7 with h7 | h7
              · have hcl : b1.locations &&& LOC_CLEARED ≠ 0 := by
                  rw [hb1loc]
                  intro h4
                  have h0 : b.locations &&& 1 = 0 := by rw [← hb1loc]; exact hd
                  exact h7 (and_seven_zero _ h0 hm h4)
                rw [v4, s8 hcl]
                exact p3
              · exact absurd h7 he

/-- Bit 0 of x ||| LOC_DISCARDED is always set. -/
theorem testBit0_lor_disc (x : Nat) : Nat.testBit (x ||| LOC_DISCARDED) 0 = true := by
  rw [Nat.testBit_lor, show Nat.testBit LOC_DISCARDED 0 = true from by decide,
    Bool.or_true]

/-- load_location at SYSMEM succeeds from any non-empty location set when
host allocation succeeds. -/
theorem loadF_sys_true_ne (fuel : Nat) (ctx : Ctx) (b : Buffer)
    (ha : ctx.sysmem_alloc_ok = true) (hne : b.locations ≠ 0) :
    (loadLocationF (Nat.succ fuel) ctx b LOC_SYSMEM).1 = true := by
  by_cases hm : b.locations &&& LOC_SYSMEM ≠ 0
  · rw [loadF_mem _ _ _ _ hm]
  · push_neg at hm
    rcases hP : wined3d_buffer_gl_prepare_location ctx b LOC_SYSMEM with ⟨st, b1⟩
    have hst := ((prepare_master ctx b LOC_SYSMEM).2.2.2.2.2.2.1 rfl).2.2.2 ha
    rw [hP] at hst
    cases st
    · simp at hst
    · by_cases hd : b1.locations &&& LOC_DISCARDED ≠ 0
      · rw [loadF_disc _ _ _ _ _ hm hne hP hd]
      · push_neg at hd
        rw [loadF_sys _ _ _ _ hm hne hP hd]

/-- load_location at SYSMEM succeeds from any state (two fuel steps cover
the empty-set recovery) when host allocation succeeds. -/
theorem loadF_sys_true2 (fuel : Nat) (ctx : Ctx) (b : Buffer)
    (ha : ctx.sysmem_alloc_ok = true) :
    (loadLocationF (fuel + 2) ctx b LOC_SYSMEM).1 = true := by
  by_cases he : b.locations = 0
  · have hm : b.locations &&& LOC_SYSMEM = 0 := by rw [he]; rfl
    rw [show fuel + 2 = Nat.succ (fuel + 1) from rfl, loadF_empty _ _ _ _ hm he]
    rcases fuel with _ | f
    · apply loadF_sys_true_ne _ _ _ ha
      rw [(validate_master b LOC_DISCARDED).2.1]
      exact ne_zero_of_testBit _ 0 (testBit0_lor_disc _)
    · apply loadF_sys_true_ne _ _ _ ha
      rw [(validate_master b LOC_DISCARDED).2.1]
      exact ne_zero_of_testBit _ 0 (testBit0_lor_disc _)
  · exact loadF_sys_true_ne (fuel + 1) ctx b ha he

/-- load_location at BUFFER succeeds from any non-empty location set when
the allocation oracles succeed and either a BO exists or USE_BO is set. -/
theorem loadF_buf_true_ne (fuel : Nat) (ctx : Ctx) (b : Buffer)
    (hsys : ctx.sysmem_alloc_ok = true)
    (hbo : b.buffer_object.isSome = true
      ∨ (b.flag_use_bo = true ∧ ctx.bo_heap_alloc_ok = true ∧ ctx.bo_create_ok = true))
    (hne : b.locations ≠ 0) :
    (loadLocationF (Nat.succ fuel) ctx b LOC_BUFFER).1 = true := by
  by_cases hm : b.locations &&& LOC_BUFFER ≠ 0
  · rw [loadF_mem _ _ _ _ hm]
  · push_neg at hm
    rcases hP : wined3d_buffer_gl_prepare_location ctx b LOC_BUFFER with ⟨st, b1⟩
    have hst := ((prepare_master ctx b LOC_BUFFER).2.2.2.2.2.2.2 rfl).1 hbo
    rw [hP] at hst
    cases st
    · simp at hst
    · by_cases hd : b1.locations &&& LOC_DISCARDED ≠ 0
      · rw [loadF_disc _ _ _ _ _ hm hne hP hd]
      · push_neg at hd
        rw [loadF_buf _ _ _ _ hm hne hP hd]
        have hS := loadF_sys_master fuel
        exact (loadLocBuffer_master _ ctx b1
          (fun s => (hS ctx s).1) (fun s => (hS ctx s).2.2.2.2.1)
          (fun s => (hS ctx s).2.1)
          (fun s h7 => (hS ctx s).2.2.2.2.2.2 (Or.inl h7))).2.2.2.2.1 hsys

/-- load_location at BUFFER succeeds from any state when the allocation
oracles succeed and either a BO exists or USE_BO is set. -/
theorem loadF_buf_true2 (fuel : Nat) (ctx : Ctx) (b : Buffer)
    (hsys : ctx.sysmem_alloc_ok = true)
    (hbo : b.buffer_object.isSome = true
      ∨ (b.flag_use_bo = true ∧ ctx.bo_heap_alloc_ok = true ∧ ctx.bo_create_ok = true)) :
    (loadLocationF (fuel + 2) ctx b LOC_BUFFER).1 = true := by
  obtain ⟨v1, v2, v3, v4, v5, v6, v7, v8⟩ := validate_master b LOC_DISCARDED
  by_cases he : b.locations = 0
  · have hm : b.locations &&& LOC_BUFFER = 0 := by rw [he]; rfl
    rw [show fuel + 2 = Nat.succ (fuel + 1) from rfl, loadF_empty _ _ _ _ hm he]
    have hne2 : (wined3d_buffer_validate_location b LOC_DISCARDED).locations ≠ 0 := by
      rw [v2]
      exact ne_zero_of_testBit _ 0 (testBit0_lor_disc _)
    have hbo2 : (wined3d_buffer_validate_location b LOC_DISCARDED).buffer_object.isSome
          = true
        ∨ ((wined3d_buffer_validate_location b LOC_DISCARDED).flag_use_bo = true
          ∧ ctx.bo_heap_alloc_ok = true ∧ ctx.bo_create_ok = true) := by
      rw [v6, v7]
      exact hbo
    rcases fuel with _ | f
    · exact loadF_buf_true_ne _ ctx _ hsys hbo2 hne2
    · exact loadF_buf_true_ne _ ctx _ hsys hbo2 hne2
  · exact loadF_buf_true_ne (fuel + 1) ctx b hsys hbo he

/-- load_location, any location: keeps the core fields, never turns USE_BO
on, and performs at most one backend copy from a well-formed location
set. -/
theorem loadF_core (fuel : Nat) : ∀ (ctx : Ctx) (b : Buffer) (loc : Nat),
    coreEq b (loadLocationF fuel ctx b loc).2
    ∧ (((loadLocationF fuel ctx b loc).2).flag_use_bo = true → b.flag_use_bo = true)
    ∧ (b.locations < 16 →
        ((loadLocationF fuel ctx b loc).2).copies ≤ b.copies + 1) := by
  induction fuel with
  | zero =>
    intro ctx b loc
    exact ⟨coreEq_refl b, fun h => h, fun _ => Nat.le_succ _⟩
  | succ n ih =>
    intro ctx b loc
    by_cases hm : b.locations &&& loc ≠ 0
    · rw [loadF_mem n ctx b loc hm]
      exact ⟨coreEq_refl b, fun h => h, fun _ => Nat.le_succ _⟩
    · push_neg at hm
      by_cases he : b.locations = 0
      · rw [loadF_empty n ctx b loc hm he]
        obtain ⟨v1, v2, v3, v4, v5, v6, v7, v8⟩ := validate_master b LOC_DISCARDED
        set bv := wined3d_buffer_validate_location b LOC_DISCARDED with hbv
        obtain ⟨i1, i2, i3⟩ := ih ctx bv loc
        refine ⟨coreEq_trans _ _ _ v1 i1, fun h => ?_, fun hwf => ?_⟩
        · rw [← v7]
          exact i2 h
        · have hwf2 : bv.locations < 16 := by
            rw [v2]
            exact lor_lt_16 _ _ hwf (by decide)
          have h9 := i3 hwf2
          rw [v4] at h9
          exact h9
      · rcases hP : wined3d_buffer_gl_prepare_location ctx b loc with ⟨st, b1⟩
        obtain ⟨p1, p2, p3, p4, p5, p6, p7, p8⟩ := prepare_master ctx b loc
        rw [hP] at p1 p2 p3 p4 p5 p6
        cases st
        · rw [loadF_prep_fail n ctx b loc b1 hm he hP]
          exact ⟨p1, p5, fun _ => by dsimp only at p3 ⊢; omega⟩
        · rcases p6 rfl with hloc | hloc
          · subst hloc
            by_cases hd : b1.locations &&& LOC_DISCARDED ≠ 0
            · rw [loadF_disc n ctx b LOC_SYSMEM b1 hm he hP hd]
              unfold wined3d_buffer_invalidate_location
              obtain ⟨v1, v2, v3, v4, v5, v6, v7, v8⟩ := validate_master b1 LOC_SYSMEM
              obtain ⟨j1, j2, j3, j4, j5, j6, j7, j8, j9⟩ := invalidate_master ctx
                (wined3d_buffer_validate_location b1 LOC_SYSMEM) LOC_DISCARDED 0 0
              refine ⟨coreEq_trans _ _ _ p1 (coreEq_trans _ _ _ v1 j1), fun h => ?_,
                fun _ => ?_⟩
              · rw [j7, v7] at h
                exact p5 h
              · rw [j4, v4]
                dsimp only at p3
                omega
            · push_neg at hd
              rw [loadF_sys n ctx b b1 hm he hP hd]
              obtain ⟨s1, s2, s3, s4, s5, s6, s7, s8⟩ := loadLocSysmem_master b1
              obtain ⟨v1, v2, v3, v4, v5, v6, v7, v8⟩ :=
                validate_master (loadLocSysmem b1) LOC_SYSMEM
              refine ⟨coreEq_trans _ _ _ p1 (coreEq_trans _ _ _ s1 v1), fun h => ?_,
                fun _ => ?_⟩
              · rw [v7, s5] at h
                exact p5 h
              · rw [v4]
                dsimp only at p3
                omega
          · subst hloc
            by_cases hd : b1.locations &&& LOC_DISCARDED ≠ 0
            · rw [loadF_disc n ctx b LOC_BUFFER b1 hm he hP hd]
              unfold wined3d_buffer_invalidate_location
              obtain ⟨v1, v2, v3, v4, v5, v6, v7, v8⟩ := validate_master b1 LOC_BUFFER
              obtain ⟨j1, j2, j3, j4, j5, j6, j7, j8, j9⟩ := invalidate_master ctx
                (wined3d_buffer_validate_location b1 LOC_BUFFER) LOC_DISCARDED 0 0
              refine ⟨coreEq_trans _ _ _ p1 (coreEq_trans _ _ _ v1 j1), fun h => ?_,
                fun _ => ?_⟩
              · rw [j7, v7] at h
                exact p5 h
              · rw [j4, v4]
                dsimp only at p3
                omega
            · push_neg at hd
              rw [loadF_buf n ctx b b1 hm he hP hd]
              have hS := loadF_sys_master n
              obtain ⟨m1, m2, m3, m4, m5, m6⟩ := loadLocBuffer_master
                (fun s => loadLocationF n ctx s LOC_SYSMEM) ctx b1
                (fun s => (hS ctx s).1) (fun s => (hS ctx s).2.2.2.2.1)
                (fun s => (hS ctx s).2.1)
                (fun s h7 => (hS ctx s).2.2.2.2.2.2 (Or.inl h7))
              refine ⟨coreEq_trans _ _ _ p1 m1, fun h => ?_, fun hwf => ?_⟩
              · rw [m2] at h
                exact p5 h
              · have hb1loc : b1.locations = b.locations := p4
                have h7 : b1.locations &&& 7 ≠ 0 := by
                  rw [hb1loc]
                  exact and_seven_ne _ hwf he hm
                have h9 := m6 h7
                dsimp only at p3
                omega

/-- load_location, any location: a non-empty location set stays non-empty,
and success marks the requested location valid. -/
theorem loadF_loc (fuel : Nat) : ∀ (ctx : Ctx) (b : Buffer) (loc : Nat),
    (b.locations ≠ 0 → ((loadLocationF fuel ctx b loc).2).locations ≠ 0)
    ∧ ((loadLocationF fuel ctx b loc).1 = true →
        ((loadLocationF fuel ctx b loc).2).locations &&& loc ≠ 0) := by
  induction fuel with
  | zero =>
    intro ctx b loc
    exact ⟨fun h => h, fun h => by simp [loadLocationF] at h⟩
  | succ n ih =>
    intro ctx b loc
    by_cases hm : b.locations &&& loc ≠ 0
    · rw [loadF_mem n ctx b loc hm]
      exact ⟨fun h => h, fun _ => hm⟩
    · push_neg at hm
      by_cases he : b.locations = 0
      · rw [loadF_empty n ctx b loc hm he]
        obtain ⟨v1, v2, v3, v4, v5, v6, v7, v8⟩ := validate_master b LOC_DISCARDED
        set bv := wined3d_buffer_validate_location b LOC_DISCARDED with hbv
        have hne : bv.locations ≠ 0 := by
          rw [v2]
          exact ne_zero_of_testBit _ 0 (testBit0_lor_disc _)
        exact ⟨fun _ => (ih ctx bv loc).1 hne, (ih ctx bv loc).2⟩
      · rcases hP : wined3d_buffer_gl_prepare_location ctx b loc with ⟨st, b1⟩
        obtain ⟨p1, p2, p3, p4, p5, p6, p7, p8⟩ := prepare_master ctx b loc
        rw [hP] at p1 p2 p3 p4 p5 p6
        have hb1loc : b1.locations = b.locations := p4
        cases st
        · rw [loadF_prep_fail n ctx b loc b1 hm he hP]
          exact ⟨fun _ => by rw [hb1loc]; exact he, fun h => by simp at h⟩
        · rcases p6 rfl with hloc | hloc
          · subst hloc
            by_cases hd : b1.locations &&& LOC_DISCARDED ≠ 0
            · rw [loadF_disc n ctx b LOC_SYSMEM b1 hm he hP hd]
              unfold wined3d_buffer_invalidate_location
              obtain ⟨v1, v2, v3, v4, v5, v6, v7, v8⟩ := validate_master b1 LOC_SYSMEM
              obtain ⟨j1, j2, j3, j4, j5, j6, j7, j8, j9⟩ := invalidate_master ctx
                (wined3d_buffer_validate_location b1 LOC_SYSMEM) LOC_DISCARDED 0 0
              have hbit : Nat.testBit ((wined3d_buffer_invalidate_range ctx
                  (wined3d_buffer_validate_location b1 LOC_SYSMEM) LOC_DISCARDED 0 0).locations
                    &&& LOC_SYSMEM) 1 = true := by
                rw [j2, v2]
                simp [Nat.testBit_land, Nat.testBit_lor,
                  show Nat.testBit LOC_SYSMEM 1 = true by decide,
                  show Nat.testBit (locNot LOC_DISCARDED) 1 = true by decide]
              refine ⟨fun _ => ?_, fun _ => ?_⟩
              · intro hz
                have : (wined3d_buffer_invalidate_range ctx
                    (wined3d_buffer_validate_location b1 LOC_SYSMEM)
                    LOC_DISCARDED 0 0).locations &&& LOC_SYSMEM ≠ 0 :=
                  ne_zero_of_testBit _ 1 hbit
                rw [hz] at this
                simp at this
              · exact ne_zero_of_testBit _ 1 hbit
            · push_neg at hd
              rw [loadF_sys n ctx b b1 hm he hP hd]
              obtain ⟨v1, v2, v3, v4, v5, v6, v7, v8⟩ :=
                validate_master (loadLocSysmem b1) LOC_SYSMEM
              have hbit : Nat.testBit ((wined3d_buffer_validate_location
                  (loadLocSysmem b1) LOC_SYSMEM).locations &&& LOC_SYSMEM) 1 = true := by
                rw [v2]
                simp [Nat.testBit_land, Nat.testBit_lor,
                  show Nat.testBit LOC_SYSMEM 1 = true by decide]
              refine ⟨fun _ => ?_, fun _ => ne_zero_of_testBit _ 1 hbit⟩
              intro hz
              have h9 := ne_zero_of_testBit _ 1 hbit
              rw [hz] at h9
              simp at h9
          · subst hloc
            by_cases hd : b1.locations &&& LOC_DISCARDED ≠ 0
            · rw [loadF_disc n ctx b LOC_BUFFER b1 hm he hP hd]
              unfold wined3d_buffer_invalidate_location
              obtain ⟨v1, v2, v3, v4, v5, v6, v7, v8⟩ := validate_master b1 LOC_BUFFER
              obtain ⟨j1, j2, j3, j4, j5, j6, j7, j8, j9⟩ := invalidate_master ctx
                (wined3d_buffer_validate_location b1 LOC_BUFFER) LOC_DISCARDED 0 0
              have hbit : Nat.testBit ((wined3d_buffer_invalidate_range ctx
                  (wined3d_buffer_validate_location b1 LOC_BUFFER) LOC_DISCARDED 0 0).locations
                    &&& LOC_BUFFER) 3 = true := by
                rw [j2, v2]
                simp [Nat.testBit_land, Nat.testBit_lor,
                  show Nat.testBit LOC_BUFFER 3 = true by decide,
                  show Nat.testBit (locNot LOC_DISCARDED) 3 = true by decide]
              refine ⟨fun _ => ?_, fun _ => ne_zero_of_testBit _ 3 hbit⟩
              intro hz
              have h9 := ne_zero_of_testBit _ 3 hbit
              rw [hz] at h9
              simp at h9
            · push_neg at hd
              rw [loadF_buf n ctx b b1 hm he hP hd]
              have hS := loadF_sys_master n
              obtain ⟨m1, m2, m3, m4, m5, m6⟩ := loadLocBuffer_master
                (fun s => loadLocationF n ctx s LOC_SYSMEM) ctx b1
                (fun s => (hS ctx s).1) (fun s => (hS ctx s).2.2.2.2.1)
                (fun s => (hS ctx s).2.1)
                (fun s h7 => (hS ctx s).2.2.2.2.2.2 (Or.inl h7))
              cases hr : (loadLocBuffer
                  (fun s => loadLocationF n ctx s LOC_SYSMEM) ctx b1).1
              · refine ⟨fun _ => ?_, fun h => by simp at h⟩
                rw [m4 hr, hb1loc]
                exact he
              · have hbit := m3 hr
                exact ⟨fun _ => ne_zero_of_testBit _ 3 hbit,
                  fun _ => (and_bit3_ne_iff _).mpr hbit⟩

/-! ## Whole-call facts about the buffer operations -/

/-- Complementing twice inside the 32-bit window is the identity on the
SYSMEM mask. -/
theorem locNot_locNot_sys : locNot (locNot LOC_SYSMEM) = LOC_SYSMEM := by decide

/-- Complementing twice inside the 32-bit window is the identity on the
BUFFER mask. -/
theorem locNot_locNot_buf : locNot (locNot LOC_BUFFER) = LOC_BUFFER := by decide

/-- wined3d_buffer_load_location: keeps the core fields, never turns
USE_BO on, always ends with a non-empty location set (the empty-set
recovery validates DISCARDED first), marks the requested location on
success, and performs at most one backend copy from a well-formed
set. -/
theorem load_location_master (ctx : Ctx) (b : Buffer) (loc : Nat) :
    coreEq b (wined3d_buffer_load_location ctx b loc).2
    ∧ (((wined3d_buffer_load_location ctx b loc).2).flag_use_bo = true
        → b.flag_use_bo = true)
    ∧ ((wined3d_buffer_load_location ctx b loc).2).locations ≠ 0
    ∧ ((wined3d_buffer_load_location ctx b loc).1 = true →
        ((wined3d_buffer_load_location ctx b loc).2).locations &&& loc ≠ 0)
    ∧ (b.locations < 16 →
        ((wined3d_buffer_load_location ctx b loc).2).copies ≤ b.copies + 1) := by
  refine ⟨(loadF_core 4 ctx b loc).1, (loadF_core 4 ctx b loc).2.1, ?_,
    (loadF_loc 4 ctx b loc).2, (loadF_core 4 ctx b loc).2.2⟩
  by_cases he : b.locations = 0
  · have hm : b.locations &&& loc = 0 := by rw [he]; simp
    show ((loadLocationF 4 ctx b loc).2).locations ≠ 0
    rw [show (4 : Nat) = Nat.succ 3 from rfl, loadF_empty 3 ctx b loc hm he]
    refine (loadF_loc 3 ctx _ loc).1 ?_
    rw [(validate_master b LOC_DISCARDED).2.1]
    exact ne_zero_of_testBit _ 0 (testBit0_lor_disc _)
  · exact (loadF_loc 4 ctx b loc).1 he

/-- wined3d_buffer_load_location at SYSMEM: preserves the dirty ranges,
USE_BO, the BO, the pin and the size, and succeeds (marking SYSMEM) when
host allocation succeeds. -/
theorem load_location_sys_facts (ctx : Ctx) (b : Buffer) :
    ((wined3d_buffer_load_location ctx b LOC_SYSMEM).2).maps = b.maps
    ∧ ((wined3d_buffer_load_location ctx b LOC_SYSMEM).2).flag_use_bo = b.flag_use_bo
    ∧ ((wined3d_buffer_load_location ctx b LOC_SYSMEM).2).buffer_object = b.buffer_object
    ∧ ((wined3d_buffer_load_location ctx b LOC_SYSMEM).2).pin_sysmem = b.pin_sysmem
    ∧ ((wined3d_buffer_load_location ctx b LOC_SYSMEM).2).size = b.size
    ∧ (ctx.sysmem_alloc_ok = true →
        (wined3d_buffer_load_location ctx b LOC_SYSMEM).1 = true)
    ∧ (ctx.sysmem_alloc_ok = true →
        ((wined3d_buffer_load_location ctx b LOC_SYSMEM).2).locations
          &&& LOC_SYSMEM ≠ 0) := by
  have hS := loadF_sys_master 4 ctx b
  exact ⟨hS.2.1, hS.2.2.2.2.1, hS.2.2.2.1, hS.2.2.1, hS.1.1,
    fun ha => loadF_sys_true2 2 ctx b ha,
    fun ha => (loadF_loc 4 ctx b LOC_SYSMEM).2 (loadF_sys_true2 2 ctx b ha)⟩

/-- wined3d_buffer_load_location at BUFFER: succeeds under the allocation
oracles for a USE_BO buffer, and success marks the BUFFER location. -/
theorem load_location_buf_facts (ctx : Ctx) (b : Buffer) :
    (goodAlloc ctx → b.flag_use_bo = true →
      (wined3d_buffer_load_location ctx b LOC_BUFFER).1 = true)
    ∧ ((wined3d_buffer_load_location ctx b LOC_BUFFER).1 = true →
        ((wined3d_buffer_load_location ctx b LOC_BUFFER).2).locations
          &&& LOC_BUFFER ≠ 0) :=
  ⟨fun hg hu => loadF_buf_true2 2 ctx b hg.1 (Or.inr ⟨hu, hg.2.1, hg.2.2⟩),
    (loadF_loc 4 ctx b LOC_BUFFER).2⟩

/-- buffer_invalidate_bo_range touches only the dirty-range array, and the
(0,0) argument collapses it to the whole-buffer range. -/
theorem bo_range_pres (ctx : Ctx) (b : Buffer) (off sz : Nat) :
    (buffer_invalidate_bo_range ctx b off sz).locations = b.locations
    ∧ (buffer_invalidate_bo_range ctx b off sz).size = b.size
    ∧ (buffer_invalidate_bo_range ctx b off sz).flag_use_bo = b.flag_use_bo
    ∧ (buffer_invalidate_bo_range ctx b off sz).buffer_object = b.buffer_object
    ∧ (buffer_invalidate_bo_range ctx b off sz).pin_sysmem = b.pin_sysmem
    ∧ (buffer_invalidate_bo_range ctx b off sz).heap_memory = b.heap_memory
    ∧ (buffer_invalidate_bo_range ctx b off sz).map_count = b.map_count
    ∧ (buffer_invalidate_bo_range ctx b off sz).map_ptr = b.map_ptr
    ∧ (buffer_invalidate_bo_range ctx b off sz).usage_dynamic = b.usage_dynamic
    ∧ (buffer_invalidate_bo_range ctx b off sz).decl_change_count = b.decl_change_count
    ∧ (off = 0 → sz = 0 →
        (buffer_invalidate_bo_range ctx b off sz).maps = [(0, b.size)]) := by
  unfold buffer_invalidate_bo_range
  by_cases h1 : off = 0 ∧ (sz = 0 ∨ sz = b.size)
  · rw [if_pos h1]
    exact ⟨rfl, rfl, rfl, rfl, rfl, rfl, rfl, rfl, rfl, rfl, fun _ _ => rfl⟩
  · rw [if_neg h1]
    by_cases h2 : off > b.size ∨ sz > b.size - off
    · rw [if_pos h2]
      exact ⟨rfl, rfl, rfl, rfl, rfl, rfl, rfl, rfl, rfl, rfl,
        fun h0 hs => absurd ⟨h0, Or.inl hs⟩ h1⟩
    · rw [if_neg h2]
      by_cases h3 : ¬ctx.array_reserve_ok = true
      · rw [if_pos h3]
        exact ⟨rfl, rfl, rfl, rfl, rfl, rfl, rfl, rfl, rfl, rfl,
          fun h0 hs => absurd ⟨h0, Or.inl hs⟩ h1⟩
      · rw [if_neg h3]
        exact ⟨rfl, rfl, rfl, rfl, rfl, rfl, rfl, rfl, rfl, rfl,
          fun h0 hs => absurd ⟨h0, Or.inl hs⟩ h1⟩

/-- drawDecay touches only the three counters. -/
theorem drawDecay_pres (b : Buffer) :
    (drawDecay b).locations = b.locations
    ∧ (drawDecay b).size = b.size
    ∧ (drawDecay b).pin_sysmem = b.pin_sysmem
    ∧ (drawDecay b).heap_memory = b.heap_memory
    ∧ (drawDecay b).flag_use_bo = b.flag_use_bo := by
  unfold drawDecay
  by_cases h1 : b.draw_count + 1 > VB_RESETDECLCHANGE <;>
    by_cases h2 : b.draw_count + 1 > VB_RESETFULLCONVS <;> simp [h1, h2]

/-- unmap never changes USE_BO or the location set. -/
theorem unmap_pres (b : Buffer) (idx : Nat) :
    ((buffer_resource_sub_resource_unmap b idx).2).flag_use_bo = b.flag_use_bo
    ∧ ((buffer_resource_sub_resource_unmap b idx).2).locations = b.locations := by
  unfold buffer_resource_sub_resource_unmap buffer_clear_dirty_areas
  dsimp only
  split_ifs <;> exact ⟨rfl, rfl⟩

/-! ## Declaration-scan preservation -/

/-- buffer_process_converted_attribute touches only the stride and the
conversion map. -/
theorem process_attr_pres (b : Buffer) (ct : ConvType) (attrib : StreamElement)
    (s : Nat) :
    (((buffer_process_converted_attribute b ct attrib s).2.1).flag_use_bo
        = b.flag_use_bo)
    ∧ (((buffer_process_converted_attribute b ct attrib s).2.1).locations
        = b.locations)
    ∧ (((buffer_process_converted_attribute b ct attrib s).2.1).decl_change_count
        = b.decl_change_count)
    ∧ (((buffer_process_converted_attribute b ct attrib s).2.1).buffer_object
        = b.buffer_object) := by
  unfold buffer_process_converted_attribute
  dsimp only
  split_ifs <;> exact ⟨rfl, rfl, rfl, rfl⟩

/-- buffer_check_attribute touches only the stride and the conversion
map. -/
theorem check_attr_pres (b : Buffer) (si : StreamInfo) (ds : DrawState)
    (i f s : Nat) :
    (((buffer_check_attribute b si ds i f s).2.1).flag_use_bo = b.flag_use_bo)
    ∧ (((buffer_check_attribute b si ds i f s).2.1).locations = b.locations)
    ∧ (((buffer_check_attribute b si ds i f s).2.1).decl_change_count
        = b.decl_change_count)
    ∧ (((buffer_check_attribute b si ds i f s).2.1).buffer_object
        = b.buffer_object) := by
  unfold buffer_check_attribute
  dsimp only
  split_ifs <;> first
    | exact ⟨rfl, rfl, rfl, rfl⟩
    | exact process_attr_pres _ _ _ _

/-- The attribute-walk fold of buffer_find_decl preserves the same
fields. -/
theorem check_fold_pres (si : StreamInfo) (ds : DrawState) (f : Nat) :
    ∀ (l : List Nat) (acc : Bool × Buffer × Nat),
    (((l.foldl (fun acc idx =>
        let r := buffer_check_attribute acc.2.1 si ds idx f acc.2.2
        (acc.1 || r.1, r.2)) acc).2.1).flag_use_bo = (acc.2.1).flag_use_bo)
    ∧ (((l.foldl (fun acc idx =>
        let r := buffer_check_attribute acc.2.1 si ds idx f acc.2.2
        (acc.1 || r.1, r.2)) acc).2.1).locations = (acc.2.1).locations)
    ∧ (((l.foldl (fun acc idx =>
        let r := buffer_check_attribute acc.2.1 si ds idx f acc.2.2
        (acc.1 || r.1, r.2)) acc).2.1).decl_change_count
          = (acc.2.1).decl_change_count)
    ∧ (((l.foldl (fun acc idx =>
        let r := buffer_check_attribute acc.2.1 si ds idx f acc.2.2
        (acc.1 || r.1, r.2)) acc).2.1).buffer_object = (acc.2.1).buffer_object) := by
  intro l
  induction l with
  | nil => intro acc; exact ⟨rfl, rfl, rfl, rfl⟩
  | cons x xs ih =>
    intro acc
    obtain ⟨c1, c2, c3, c4⟩ := check_attr_pres acc.2.1 si ds x f acc.2.2
    obtain ⟨i1, i2, i3, i4⟩ := ih (acc.1 || (buffer_check_attribute acc.2.1 si ds x f acc.2.2).1,
      (buffer_check_attribute acc.2.1 si ds x f acc.2.2).2)
    exact ⟨i1.trans c1, i2.trans c2, i3.trans c3, i4.trans c4⟩

/-- buffer_find_decl touches only the stride and the conversion map: it
preserves USE_BO, the location set, the declaration-change counter and the
BO. -/
theorem find_decl_pres (b : Buffer) (si : StreamInfo) (ds : DrawState) (f : Nat) :
    (((buffer_find_decl b si ds f).2).flag_use_bo = b.flag_use_bo)
    ∧ (((buffer_find_decl b si ds f).2).locations = b.locations)
    ∧ (((buffer_find_decl b si ds f).2).decl_change_count = b.decl_change_count)
    ∧ (((buffer_find_decl b si ds f).2).buffer_object = b.buffer_object) := by
  unfold buffer_find_decl
  dsimp only
  by_cases h1 : b.flag_hasdesc = true ∧ b.usage_staticdecl = true
  · rw [if_pos h1]
    exact ⟨rfl, rfl, rfl, rfl⟩
  · rw [if_neg h1]
    by_cases h2 : f = 0
    · rw [if_pos h2]
      by_cases h3 : b.conversion_map.isSome = true
      · rw [if_pos h3]
        exact ⟨rfl, rfl, rfl, rfl⟩
      · rw [if_neg h3]
        exact ⟨rfl, rfl, rfl, rfl⟩
    · rw [if_neg h2]
      obtain ⟨c1, c2, c3, c4⟩ := check_attr_pres b si ds 0 f 0
      obtain ⟨g1, g2, g3, g4⟩ := check_fold_pres si ds (f &&& locNot FIXUP_XYZRHW)
        (ffpWalk.drop 1)
        ((buffer_check_attribute b si ds 0 f 0).1,
          (buffer_check_attribute b si ds 0 f 0).2)
      refine ⟨?_, ?_, ?_, ?_⟩
      · split <;> exact g1.trans c1
      · split <;> exact g2.trans c2
      · split <;> exact g3.trans c3
      · split <;> exact g4.trans c4

/-! ## Unload and BO drop -/

/-- buffer_resource_unload: USE_BO is untouched, the BO is gone afterwards,
and when host allocation succeeds a non-empty location set stays
non-empty (the SYSMEM copy made before dropping the BO stays valid). -/
theorem unload_master (ctx : Ctx) (b : Buffer) :
    (buffer_resource_unload ctx b).flag_use_bo = b.flag_use_bo
    ∧ (buffer_resource_unload ctx b).buffer_object = none
    ∧ (ctx.sysmem_alloc_ok = true → b.locations ≠ 0 →
        (buffer_resource_unload ctx b).locations ≠ 0) := by
  unfold buffer_resource_unload wined3d_buffer_invalidate_location
    wined3d_buffer_gl_unload_location buffer_clear_dirty_areas
  by_cases h : b.buffer_object.isSome = true
  · rw [if_pos h]
    dsimp only
    obtain ⟨s1, s2, s3, s4, s5, s6, s7⟩ := load_location_sys_facts ctx b
    obtain ⟨j1, j2, j3, j4, j5, j6, j7, j8, j9⟩ := invalidate_master ctx
      (wined3d_buffer_load_location ctx b LOC_SYSMEM).2 LOC_BUFFER 0 0
    rw [if_pos rfl]
    have hb2 : (wined3d_buffer_invalidate_range ctx
        (wined3d_buffer_load_location ctx b LOC_SYSMEM).2
        LOC_BUFFER 0 0).buffer_object.isSome = true := by
      rw [j6, s3]
      exact h
    rw [if_pos hb2]
    refine ⟨j7.trans s2, rfl, fun hs _ => ?_⟩
    have hloc : (wined3d_buffer_invalidate_range ctx
        (wined3d_buffer_load_location ctx b LOC_SYSMEM).2
        LOC_BUFFER 0 0).locations
        = ((wined3d_buffer_load_location ctx b LOC_SYSMEM).2).locations
          &&& locNot LOC_BUFFER := j2
    show (wined3d_buffer_invalidate_range ctx
        (wined3d_buffer_load_location ctx b LOC_SYSMEM).2
        LOC_BUFFER 0 0).locations ≠ 0
    rw [hloc]
    apply ne_zero_of_testBit _ 1
    rw [Nat.testBit_land, (and_bit1_ne_iff _).mp (s7 hs),
      show Nat.testBit (locNot LOC_BUFFER) 1 = true from by decide]
    rfl
  · rw [if_neg h]
    have hbo : b.buffer_object = none := by
      cases hb : b.buffer_object
      · rfl
      · rw [hb] at h
        simp at h
    exact ⟨rfl, hbo, fun _ hne => hne⟩

/-- wined3d_buffer_drop_bo: USE_BO comes out false, the BO is gone, and
under host allocation a non-empty location set stays non-empty. -/
theorem drop_bo_master (ctx : Ctx) (b : Buffer) :
    (wined3d_buffer_drop_bo ctx b).flag_use_bo = false
    ∧ (wined3d_buffer_drop_bo ctx b).buffer_object = none
    ∧ (ctx.sysmem_alloc_ok = true → b.locations ≠ 0 →
        (wined3d_buffer_drop_bo ctx b).locations ≠ 0) := by
  obtain ⟨u1, u2, u3⟩ := unload_master ctx { b with flag_use_bo := false }
  exact ⟨u1, u2, fun hs hne => u3 hs hne⟩

/-- loadPostPrepare: never turns USE_BO on, and under host allocation a
non-empty location set stays non-empty. -/
theorem loadPostPrepare_master (ctx : Ctx) (dc : Bool × Buffer) :
    ((loadPostPrepare ctx dc).flag_use_bo = true → (dc.2).flag_use_bo = true)
    ∧ (ctx.sysmem_alloc_ok = true → (dc.2).locations ≠ 0 →
        (loadPostPrepare ctx dc).locations ≠ 0) := by
  unfold loadPostPrepare
  dsimp only
  refine ⟨?_, fun hs hne => ?_⟩
  · split
    · intro h
      exact (drawDecay_pres dc.2).2.2.2.2.symm.trans h
    · split
      · split
        · intro h
          rw [(drop_bo_master ctx _).1] at h
          simp at h
        · intro h
          have hx := (load_location_master ctx _ LOC_BUFFER).2.1 h
          exact (bo_range_pres ctx _ 0 0).2.2.1.symm.trans hx
      · split
        · split
          · intro h
            rw [(drop_bo_master ctx _).1] at h
            simp at h
          · intro h
            have hx := (load_location_master ctx _ LOC_BUFFER).2.1 h
            exact hx
        · intro h
          have hx := (load_location_master ctx _ LOC_BUFFER).2.1 h
          exact (drawDecay_pres dc.2).2.2.2.2.symm.trans hx
  · split
    · exact fun hz => hne ((drawDecay_pres dc.2).1.symm.trans hz)
    · split
      · split
        · exact (drop_bo_master ctx _).2.2 hs hne
        · exact (load_location_master ctx _ LOC_BUFFER).2.2.1
      · split
        · split
          · exact (drop_bo_master ctx _).2.2 hs hne
          · exact (load_location_master ctx _ LOC_BUFFER).2.2.1
        · exact (load_location_master ctx _ LOC_BUFFER).2.2.1

/-- wined3d_buffer_load: never turns USE_BO on, and under host allocation a
non-empty location set stays non-empty. -/
theorem load_op_master (ctx : Ctx) (b : Buffer) (ds : Option DrawState) :
    ((wined3d_buffer_load ctx b ds).flag_use_bo = true → b.flag_use_bo = true)
    ∧ (ctx.sysmem_alloc_ok = true → b.locations ≠ 0 →
        (wined3d_buffer_load ctx b ds).locations ≠ 0) := by
  unfold wined3d_buffer_load
  by_cases hc1 : b.map_count ≠ 0 ∧ b.map_ptr = true
  · rw [if_pos hc1]
    exact ⟨fun h => h, fun _ hne => hne⟩
  · rw [if_neg hc1]
    by_cases hc2 : ¬b.flag_use_bo = true
    · rw [if_pos hc2]
      exact ⟨fun h => h, fun _ hne => hne⟩
    · rw [if_neg hc2]
      rcases hP : wined3d_buffer_gl_prepare_location ctx b LOC_BUFFER with ⟨st, b1⟩
      obtain ⟨p1, p2, p3, p4, p5, p6, p7, p8⟩ := prepare_master ctx b LOC_BUFFER
      rw [hP] at p4 p5
      dsimp only at p4 p5
      cases st
      · exact ⟨p5, fun _ hne hz => hne (p4.symm.trans hz)⟩
      · dsimp only
        rcases ds with _ | s
        · dsimp only
          obtain ⟨m1, m2⟩ := loadPostPrepare_master ctx (false, b1)
          exact ⟨fun h => p5 (m1 h),
            fun hs hne => m2 hs (fun hz => hne (p4.symm.trans hz))⟩
        · dsimp only
          rcases hF : buffer_find_decl b1 s.si s (load_fixup_flags ctx s)
            with ⟨chg, bf⟩
          obtain ⟨f1, f2, f3, f4⟩ :=
            find_decl_pres b1 s.si s (load_fixup_flags ctx s)
          rw [hF] at f1 f2 f3 f4
          dsimp only at f1 f2 f3 f4
          dsimp only
          obtain ⟨m1, m2⟩ := loadPostPrepare_master ctx
            (chg, { bf with flag_hasdesc := true })
          exact ⟨fun h => p5 (f1.symm.trans (m1 h)),
            fun hs hne => m2 hs
              (fun hz => hne (p4.symm.trans (f2.symm.trans hz)))⟩

/-! ## Map-path masters -/

/-- mapDirty: touches only the dirty-range array, collapsing it to the
whole buffer for a (0,0) write; preserves the BUFFER location bit. -/
theorem mapDirty_master (ctx : Ctx) (flags : MapFlags) (doff dsz : Nat)
    (b1 : Buffer) :
    (mapDirty ctx flags doff dsz b1).flag_use_bo = b1.flag_use_bo
    ∧ (mapDirty ctx flags doff dsz b1).size = b1.size
    ∧ (mapDirty ctx flags doff dsz b1).pin_sysmem = b1.pin_sysmem
    ∧ (mapDirty ctx flags doff dsz b1).heap_memory = b1.heap_memory
    ∧ (b1.locations &&& LOC_BUFFER ≠ 0 →
        (mapDirty ctx flags doff dsz b1).locations &&& LOC_BUFFER ≠ 0)
    ∧ (flags.write = true → doff = 0 → dsz = 0 →
        (mapDirty ctx flags doff dsz b1).maps = [(0, b1.size)])
    ∧ (flags.write = false → mapDirty ctx flags doff dsz b1 = b1) := by
  unfold mapDirty wined3d_buffer_invalidate_location
  obtain ⟨j1, j2, j3, j4, j5, j6, j7, j8, j9⟩ :=
    invalidate_master ctx b1 (locNot LOC_BUFFER) 0 0
  obtain ⟨q1, q2, q3, q4, q5, q6, q7, q8, q9, q10, q11⟩ :=
    bo_range_pres ctx (wined3d_buffer_invalidate_range ctx b1 (locNot LOC_BUFFER) 0 0)
      doff dsz
  by_cases hw : flags.write = true
  · rw [if_pos hw]
    refine ⟨q3.trans j7, q2.trans j1.1, q5.trans j3, q6.trans j5, fun hb => ?_,
      fun _ h0 hs0 => ?_, fun hf => absurd hw (by simp [hf])⟩
    · apply (and_bit3_ne_iff _).mpr
      rw [q1, j2, locNot_locNot_buf, Nat.testBit_land, (and_bit3_ne_iff _).mp hb]
      decide
    · rw [q11 h0 hs0, j1.1]
  · rw [if_neg hw]
    exact ⟨rfl, rfl, rfl, rfl, fun hb => hb, fun hw0 => absurd hw0 hw, fun _ => rfl⟩

/-- mapEvict: drops only host memory (and the SYSMEM bit); the dirty
ranges and the BUFFER bit survive. -/
theorem mapEvict_master (ctx : Ctx) (flags : MapFlags) (c : Buffer) :
    (mapEvict ctx flags c).flag_use_bo = c.flag_use_bo
    ∧ (mapEvict ctx flags c).size = c.size
    ∧ (mapEvict ctx flags c).maps = c.maps
    ∧ (c.locations &&& LOC_BUFFER ≠ 0 →
        (mapEvict ctx flags c).locations &&& LOC_BUFFER ≠ 0) := by
  unfold mapEvict
  obtain ⟨e1, e2, e3, e4, e5, e6, e7⟩ := evict_master ctx c
  by_cases he : flags.discard = true ∧ c.heap_memory.isSome = true
  · rw [if_pos he]
    refine ⟨e5, e1.1, e6, fun hb => ?_⟩
    apply (and_bit3_ne_iff _).mpr
    rw [e7]
    by_cases hp : c.pin_sysmem = true
    · rw [if_pos hp]
      exact (and_bit3_ne_iff _).mp hb
    · rw [if_neg hp]
      rw [Nat.testBit_land, (and_bit3_ne_iff _).mp hb]
      decide
  · rw [if_neg he]
    exact ⟨rfl, rfl, rfl, fun hb => hb⟩

/-- mapFirstMap: never turns USE_BO on; keeps the location set non-empty
under host allocation; and keeps the dirty ranges when it does not drop
the BO. -/
theorem mapFirstMap_master (ctx : Ctx) (cnt : Nat) (c : Buffer) :
    ((mapFirstMap ctx cnt c).flag_use_bo = true → c.flag_use_bo = true)
    ∧ (ctx.sysmem_alloc_ok = true → c.locations ≠ 0 →
        (mapFirstMap ctx cnt c).locations ≠ 0)
    ∧ (c.flag_use_bo = true →
        (mapFirstMap ctx cnt c).flag_use_bo = c.flag_use_bo →
        (mapFirstMap ctx cnt c).maps = c.maps) := by
  unfold mapFirstMap
  dsimp only
  by_cases hc : cnt = 1
  · rw [if_pos hc]
    by_cases ha : ctx.map_ptr_aligned = true
    · rw [if_pos ha]
      exact ⟨fun h => h, fun _ hne => hne, fun _ _ => rfl⟩
    · rw [if_neg ha]
      by_cases hdyn : c.usage_dynamic = true
      · rw [if_pos hdyn]
        refine ⟨fun h => ?_, fun hs hne => ?_, fun hub heq => ?_⟩
        · rw [(drop_bo_master ctx _).1] at h
          simp at h
        · exact (drop_bo_master ctx _).2.2 hs hne
        · rw [(drop_bo_master ctx _).1] at heq
          exact absurd (heq.trans hub) (by simp)
      · rw [if_neg hdyn]
        refine ⟨fun h => ?_, fun _ _ => ?_, fun _ _ => ?_⟩
        · have hx : (wined3d_buffer_load_location ctx
              { c with map_ptr := false } LOC_SYSMEM).2.flag_use_bo = true := h
          exact ((load_location_sys_facts ctx
            { c with map_ptr := false }).2.1).symm.trans hx
        · exact (load_location_master ctx
            { c with map_ptr := false } LOC_SYSMEM).2.2.1
        · exact (load_location_sys_facts ctx { c with map_ptr := false }).1
  · rw [if_neg hc]
    exact ⟨fun h => h, fun _ hne => hne, fun _ _ => rfl⟩

/-- mapRest: returns WINED3D_OK, never turns USE_BO on, ends non-empty
from a BUFFER-valid set under host allocation, and a DISCARD write that
does not drop the BO leaves exactly the whole-buffer dirty range. -/
theorem mapRest_master (ctx : Ctx) (flags : MapFlags) (doff dsz cnt : Nat)
    (b1 : Buffer) :
    (mapRest ctx flags doff dsz cnt b1).1 = HResult.WINED3D_OK
    ∧ ((mapRest ctx flags doff dsz cnt b1).2.flag_use_bo = true →
        b1.flag_use_bo = true)
    ∧ (ctx.sysmem_alloc_ok = true → b1.locations &&& LOC_BUFFER ≠ 0 →
        (mapRest ctx flags doff dsz cnt b1).2.locations ≠ 0)
    ∧ (flags.write = true → doff = 0 → dsz = 0 → b1.flag_use_bo = true →
        (mapRest ctx flags doff dsz cnt b1).2.flag_use_bo = b1.flag_use_bo →
        (mapRest ctx flags doff dsz cnt b1).2.maps = [(0, b1.size)]) := by
  unfold mapRest
  dsimp only
  obtain ⟨d1, d2, d3, d4, d5, d6, d7⟩ := mapDirty_master ctx flags doff dsz b1
  obtain ⟨e1, e2, e3, e4⟩ := mapEvict_master ctx flags
    (mapDirty ctx flags doff dsz b1)
  obtain ⟨g1, g2, g3⟩ := mapFirstMap_master ctx cnt
    (mapEvict ctx flags (mapDirty ctx flags doff dsz b1))
  refine ⟨rfl, fun h => ?_, fun hs hb => ?_, fun hw h0 hs0 hub heq => ?_⟩
  · have hx := g1 h
    rw [e1, d1] at hx
    exact hx
  · apply g2 hs
    have hb3 := e4 (d5 hb)
    intro hz
    rw [hz] at hb3
    simp at hb3
  · have hub3 : (mapEvict ctx flags (mapDirty ctx flags doff dsz b1)).flag_use_bo
        = true := by
      rw [e1, d1]
      exact hub
    have hflag : (mapFirstMap ctx cnt
          (mapEvict ctx flags (mapDirty ctx flags doff dsz b1))).flag_use_bo
        = (mapEvict ctx flags (mapDirty ctx flags doff dsz b1)).flag_use_bo := by
      rw [e1, d1]
      exact heq
    rw [g3 hub3 hflag, e3, d6 hw h0 hs0]

/-- The BUFFER-location backend prepare preserves USE_BO whenever it
succeeds (the flag is only cleared on BO-creation failure). -/
theorem prepare_buffer_flag (ctx : Ctx) (b : Buffer)
    (h : (wined3d_buffer_gl_prepare_location ctx b LOC_BUFFER).1 = true) :
    ((wined3d_buffer_gl_prepare_location ctx b LOC_BUFFER).2).flag_use_bo
      = b.flag_use_bo := by
  unfold wined3d_buffer_gl_prepare_location
    wined3d_buffer_gl_create_buffer_object buffer_invalidate_bo_range at h ⊢
  rw [if_neg (show ¬(LOC_BUFFER = LOC_SYSMEM) from by decide), if_pos rfl] at h ⊢
  by_cases h4 : b.buffer_object.isSome = true
  · rw [if_pos h4]
  · rw [if_neg h4] at h ⊢
    by_cases h5 : ¬b.flag_use_bo = true
    · rw [if_pos h5] at h
      simp at h
    · rw [if_neg h5] at h ⊢
      by_cases h6 : ¬ctx.bo_heap_alloc_ok = true
      · rw [if_pos h6] at h
        simp at h
      · rw [if_neg h6] at h ⊢
        by_cases h7 : ¬ctx.bo_create_ok = true
        · rw [if_pos h7] at h
          simp at h
        · rw [if_neg h7] at h ⊢
          rw [if_pos (by exact ⟨rfl, Or.inl rfl⟩)]

/-- buffer_resource_sub_resource_map: never turns USE_BO on; under the
allocation oracles a non-empty location set stays non-empty; and a
successful WRITE|DISCARD map that does not drop the BO leaves exactly the
whole-buffer dirty range. -/
theorem map_op_master (ctx : Ctx) (b : Buffer) (idx : Nat) (box : Nat × Nat)
    (flags : MapFlags) :
    ((buffer_resource_sub_resource_map ctx b idx box flags).2.flag_use_bo = true →
        b.flag_use_bo = true)
    ∧ (goodAlloc ctx → b.locations ≠ 0 →
        (buffer_resource_sub_resource_map ctx b idx box flags).2.locations ≠ 0)
    ∧ (flags.write = true → flags.discard = true →
        (buffer_resource_sub_resource_map ctx b idx box flags).1 = HResult.WINED3D_OK →
        (buffer_resource_sub_resource_map ctx b idx box flags).2.flag_use_bo
          = b.flag_use_bo →
        (buffer_resource_sub_resource_map ctx b idx box flags).2.maps
          = [(0, b.size)]) := by
  unfold buffer_resource_sub_resource_map
  dsimp only
  by_cases hfast : (flags.write = true ∧ ¬(flags.nooverwrite = true ∨ flags.discard = true))
      ∨ (¬flags.write = true ∧ b.locations &&& LOC_SYSMEM ≠ 0)
      ∨ b.pin_sysmem = true ∨ ¬b.flag_use_bo = true
  · rw [if_pos hfast]
    by_cases hsm : b.locations &&& LOC_SYSMEM = 0
    · rw [if_pos hsm]
      obtain ⟨s1, s2, s3, s4, s5, s6, s7⟩ := load_location_sys_facts ctx
        { b with map_count := b.map_count + 1 }
      by_cases hw : flags.write = true
      · rw [if_pos hw]
        obtain ⟨j1, j2, j3, j4, j5, j6, j7, j8, j9⟩ := invalidate_master ctx
          (wined3d_buffer_load_location ctx
            { b with map_count := b.map_count + 1 } LOC_SYSMEM).2
          (locNot LOC_SYSMEM)
          (if flags.discard = true then 0 else box.1)
          (if flags.discard = true then 0 else box.2 - box.1)
        refine ⟨fun h => ?_, fun hg _ => ?_, fun _ hd _ _ => ?_⟩
        · have hx := j7.trans s2
          exact hx ▸ h
        · intro hz
          rw [j2, locNot_locNot_sys] at hz
          have hx := s7 hg.1
          rw [hz] at hx
          simp at hx
        · rw [j9 (by decide) (by rw [if_pos hd]) (by rw [if_pos hd]), s5]
      · rw [if_neg hw]
        refine ⟨fun h => s2 ▸ h, fun hg _ => ?_, fun hw0 => absurd hw0 hw⟩
        exact (load_location_master ctx _ LOC_SYSMEM).2.2.1
    · rw [if_neg hsm]
      by_cases hw : flags.write = true
      · rw [if_pos hw]
        obtain ⟨j1, j2, j3, j4, j5, j6, j7, j8, j9⟩ := invalidate_master ctx
          { b with map_count := b.map_count + 1 }
          (locNot LOC_SYSMEM)
          (if flags.discard = true then 0 else box.1)
          (if flags.discard = true then 0 else box.2 - box.1)
        refine ⟨fun h => j7 ▸ h, fun _ _ => ?_, fun _ hd _ _ => ?_⟩
        · intro hz
          rw [j2, locNot_locNot_sys] at hz
          exact hsm hz
        · rw [j9 (by decide) (by rw [if_pos hd]) (by rw [if_pos hd])]
      · rw [if_neg hw]
        exact ⟨fun h => h, fun _ hne => hne, fun hw0 => absurd hw0 hw⟩
  · rw [if_neg hfast]
    have hub : b.flag_use_bo = true := by
      rcases hu : b.flag_use_bo with _ | _
      · exact absurd (Or.inr (Or.inr (Or.inr (by rw [hu]; simp)))) hfast
      · rfl
    by_cases hd : flags.discard = true
    · rw [if_pos hd]
      rcases hQ : wined3d_buffer_gl_prepare_location ctx
        { b with map_count := b.map_count + 1 } LOC_BUFFER with ⟨st, c1⟩
      obtain ⟨p1, p2, p3, p4, p5, p6, p7, p8⟩ := prepare_master ctx
        { b with map_count := b.map_count + 1 } LOC_BUFFER
      rw [hQ] at p1 p4 p5
      dsimp only at p4 p5
      cases st
      · dsimp only
        exact ⟨p5, fun _ hne hz => hne (p4.symm.trans hz),
          fun _ _ hOK => absurd hOK (by simp)⟩
      · dsimp only
        obtain ⟨v1, v2, v3, v4, v5, v6, v7, v8⟩ := validate_master c1 LOC_BUFFER
        obtain ⟨r1, r2, r3, r4⟩ := mapRest_master ctx flags
          (if flags.discard = true then 0 else box.1)
          (if flags.discard = true then 0 else box.2 - box.1)
          (b.map_count + 1)
          (wined3d_buffer_validate_location c1 LOC_BUFFER)
        have hc1flag : c1.flag_use_bo = b.flag_use_bo := by
          have := prepare_buffer_flag ctx { b with map_count := b.map_count + 1 }
            (by rw [hQ])
          rw [hQ] at this
          exact this
        refine ⟨fun h => ?_, fun hg _ => ?_, fun hw _ hOK heq => ?_⟩
        · have hx := r2 h
          rw [v7] at hx
          exact p5 hx
        · apply r3 hg.1
          rw [v2]
          apply (and_bit3_ne_iff _).mpr
          rw [Nat.testBit_lor]
          simp [show Nat.testBit LOC_BUFFER 3 = true from by decide]
        · have hub1 : (wined3d_buffer_validate_location c1 LOC_BUFFER).flag_use_bo
              = true := by
            rw [v7, hc1flag]
            exact hub
          have heq1 : (mapRest ctx flags
                (if flags.discard = true then 0 else box.1)
                (if flags.discard = true then 0 else box.2 - box.1)
                (b.map_count + 1)
                (wined3d_buffer_validate_location c1 LOC_BUFFER)).2.flag_use_bo
              = (wined3d_buffer_validate_location c1 LOC_BUFFER).flag_use_bo := by
            rw [hub1, heq, hub]
          rw [r4 hw (by rw [if_pos hd]) (by rw [if_pos hd]) hub1 heq1, v1.1, p1.1]
    · rw [if_neg hd]
      obtain ⟨r1, r2, r3, r4⟩ := mapRest_master ctx flags
        (if flags.discard = true then 0 else box.1)
        (if flags.discard = true then 0 else box.2 - box.1)
        (b.map_count + 1)
        (wined3d_buffer_load_location ctx
          { b with map_count := b.map_count + 1 } LOC_BUFFER).2
      refine ⟨fun h => ?_, fun hg _ => ?_, fun _ hd0 => absurd hd0 hd⟩
      · have hx := r2 h
        exact (load_location_master ctx
          { b with map_count := b.map_count + 1 } LOC_BUFFER).2.1 hx
      · apply r3 hg.1
        exact (load_location_buf_facts ctx
            { b with map_count := b.map_count + 1 }).2
          ((load_location_buf_facts ctx
            { b with map_count := b.map_count + 1 }).1 hg hub)

/-! ## The operation interface -/

/-- Every operation of the buffer interface: never turns USE_BO on, and
preserves a non-empty location set under successful allocation oracles. -/
theorem applyOp_master (ctx : Ctx) (o : BufOp) (b : Buffer) :
    ((applyOp ctx o b).flag_use_bo = true → b.flag_use_bo = true)
    ∧ (goodAlloc ctx → b.locations ≠ 0 → (applyOp ctx o b).locations ≠ 0) := by
  cases o with
  | opLoadLocation loc =>
    exact ⟨(load_location_master ctx b loc).2.1,
      fun _ _ => (load_location_master ctx b loc).2.2.1⟩
  | opLoad ds =>
    exact ⟨(load_op_master ctx b ds).1,
      fun hg hne => (load_op_master ctx b ds).2 hg.1 hne⟩
  | opMap idx box flags =>
    exact ⟨(map_op_master ctx b idx box flags).1,
      (map_op_master ctx b idx box flags).2.1⟩
  | opUnmap idx =>
    refine ⟨fun h => ?_, fun _ hne hz => ?_⟩
    · have h2 : (buffer_resource_sub_resource_unmap b idx).2.flag_use_bo = true := h
      rw [(unmap_pres b idx).1] at h2
      exact h2
    · exact hne ((unmap_pres b idx).2.symm.trans hz)

/-- Once USE_BO is false, no sequence of operations turns it back on. -/
theorem applyOps_use_bo (l : List (Ctx × BufOp)) : ∀ b : Buffer,
    b.flag_use_bo = false → (applyOps l b).flag_use_bo = false := by
  induction l with
  | nil => exact fun _ h => h
  | cons p ps ih =>
    intro b h
    apply ih
    rcases hu : (applyOp p.1 p.2 b).flag_use_bo with _ | _
    · rfl
    · exact absurd ((applyOp_master p.1 p.2 b).1 hu) (by rw [h]; simp)

/-- Under successful allocation oracles, a non-empty location set survives
any sequence of operations. -/
theorem applyOps_nonempty (l : List (Ctx × BufOp)) : ∀ b : Buffer,
    (∀ p ∈ l, goodAlloc p.1) → b.locations ≠ 0 →
    (applyOps l b).locations ≠ 0 := by
  induction l with
  | nil => exact fun _ _ h => h
  | cons p ps ih =>
    intro b hg hne
    exact ih (applyOp p.1 p.2 b) (fun q hq => hg q (List.mem_cons_of_mem p hq))
      ((applyOp_master p.1 p.2 b).2 (hg p (List.mem_cons_self p ps)) hne)

/-! ## Range-set behaviour (C5) -/

/-- Claim C5: for a buffer of size S, invalidating (0,0), (0,S) or any
out-of-bounds (offset,size) collapses the range set to the single
whole-buffer range; any other in-bounds argument appends (offset,size),
and allocation failure while appending also collapses. -/
theorem C5_range_collapse (ctx : Ctx) (b : Buffer) (offset size : Nat) :
    (((offset = 0 ∧ (size = 0 ∨ size = b.size)) ∨ offset > b.size ∨ size > b.size - offset) →
      (buffer_invalidate_bo_range ctx b offset size).maps = [(0, b.size)])
    ∧ (¬((offset = 0 ∧ (size = 0 ∨ size = b.size)) ∨ offset > b.size ∨ size > b.size - offset) →
        ctx.array_reserve_ok = true →
        (buffer_invalidate_bo_range ctx b offset size).maps = b.maps ++ [(offset, size)])
    ∧ (¬((offset = 0 ∧ (size = 0 ∨ size = b.size)) ∨ offset > b.size ∨ size > b.size - offset) →
        ctx.array_reserve_ok = false →
        (buffer_invalidate_bo_range ctx b offset size).maps = [(0, b.size)]) := by
  refine ⟨fun h => ?_, fun h hr => ?_, fun h hr => ?_⟩
  · unfold buffer_invalidate_bo_range
    split
    · rfl
    · split
      · rfl
      · exfalso; tauto
  · unfold buffer_invalidate_bo_range
    rw [if_neg (fun hc => h (Or.inl hc)), if_neg (fun hc => h (Or.inr hc)),
      if_neg (by simp [hr])]
  · unfold buffer_invalidate_bo_range
    rw [if_neg (fun hc => h (Or.inl hc)), if_neg (fun hc => h (Or.inr hc)),
      if_pos (by simp [hr])]

/-- Witness for C5 at a concrete input: invalidate (2,3) on an 8-byte
buffer appends; then invalidate (2,7) is out of bounds and collapses. -/
theorem C5_witness :
    (¬(((2:Nat) = 0 ∧ ((3:Nat) = 0 ∨ (3:Nat) = (baseBuf 8).size))
        ∨ 2 > (baseBuf 8).size ∨ 3 > (baseBuf 8).size - 2)
      ∧ ctxOk.array_reserve_ok = true)
    ∧ (buffer_invalidate_bo_range ctxOk (baseBuf 8) 2 3).maps = (baseBuf 8).maps ++ [(2, 3)] :=
  ⟨by decide, (C5_range_collapse ctxOk (baseBuf 8) 2 3).2.1 (by decide) rfl⟩

/-! ## D3DCOLOR swizzle (C6) -/

/-- Claim C6: fixup_d3dcolor keeps the alpha and green lanes and swaps the
red and blue lanes, computing (src & 0xff00ff00) | ((src & 0x00ff0000) >> 16)
| ((src & 0x000000ff) << 16); and uploading the 4-byte buffer holding
0x11223344 with stride 4 and an all-D3DCOLOR conversion map yields
0x11443322 in the bytes copied to the device BO. -/
theorem C6_d3dcolor_swizzle :
    (∀ src_color : Nat, fixup_d3dcolor src_color
        = (src_color &&& 0xff00ff00) ||| ((src_color &&& 0x00ff0000) >>> 16)
          ||| ((src_color &&& 0x000000ff) <<< 16))
    ∧ (wined3d_buffer_load_location ctxOk buf6 LOC_BUFFER).1 = true
    ∧ readDword ((wined3d_buffer_load_location ctxOk buf6 LOC_BUFFER).2.buffer_object.getD
        memZero) 0 = 0x11443322 :=
  ⟨fun _ => rfl, by decide, by decide⟩

/-! ## Sub-resource index validation (C7) -/

/-- Counterexample to claim C7 as stated: a map call with sub_index = 1 on
a fresh USE_BO buffer is not rejected; it returns WINED3D_OK and mutates the
buffer (map_count is incremented). -/
theorem C7_counterexample :
    (buffer_resource_sub_resource_map ctxOk buf2b 1 (0, 8) ⟨false, true, false, false⟩).1
        = HResult.WINED3D_OK
    ∧ (buffer_resource_sub_resource_map ctxOk buf2b 1 (0, 8)
        ⟨false, true, false, false⟩).2.map_count = buf2b.map_count + 1 := by
  constructor <;> decide

/-- Claim C7 as amended: map does not examine sub_index at all (its result
is independent of it), while unmap with sub_index ≠ 0 returns E_INVALIDARG
without mutating the buffer. -/
theorem C7_amended_subindex (ctx : Ctx) (b : Buffer) (i j : Nat) (box : Nat × Nat)
    (flags : MapFlags) :
    buffer_resource_sub_resource_map ctx b i box flags
      = buffer_resource_sub_resource_map ctx b j box flags
    ∧ ∀ k, k ≠ 0 → buffer_resource_sub_resource_unmap b k = (HResult.E_INVALIDARG, b) := by
  refine ⟨rfl, fun k hk => ?_⟩
  unfold buffer_resource_sub_resource_unmap
  simp [hk]

/-- Witness for C7's amended claim at sub_index 1. -/
theorem C7_witness :
    (buffer_resource_sub_resource_map ctxOk buf2b 1 (0, 8) ⟨false, true, false, false⟩
      = buffer_resource_sub_resource_map ctxOk buf2b 0 (0, 8) ⟨false, true, false, false⟩)
    ∧ buffer_resource_sub_resource_unmap buf2b 1 = (HResult.E_INVALIDARG, buf2b) :=
  ⟨(C7_amended_subindex ctxOk buf2b 1 0 (0, 8) ⟨false, true, false, false⟩).1,
   (C7_amended_subindex ctxOk buf2b 1 0 (0, 8) ⟨false, true, false, false⟩).2 1 (by decide)⟩

/-! ## Streaming buffer wrap (C8) -/

/-- Counterexample to claim C8 as stated: on a fresh streaming buffer the
first 300000-byte map at stride 16 fits (0 + 300000 ≤ 524288), so it is
mapped with NOOVERWRITE, not DISCARD. -/
theorem C8_counterexample :
    (wined3d_streaming_buffer_map ctxOk sb0 300000 16).2.2.1.discard = false
    ∧ (wined3d_streaming_buffer_map ctxOk sb0 300000 16).2.2.1.nooverwrite = true := by
  constructor <;> decide

/-- Claim C8 as amended: with SB_MIN_SIZE = 524288, mapping 300000 bytes at
stride 16 twice: the first call returns pos = 0 with WRITE|NOOVERWRITE and
advances the cursor to 300000; the second call wraps (300000 + 300000 >
524288) and returns pos = 0 with WRITE|DISCARD; the cursor afterwards is
300000. -/
theorem C8_streaming_wrap :
    (wined3d_streaming_buffer_map ctxOk sb0 300000 16).1 = HResult.WINED3D_OK
    ∧ (wined3d_streaming_buffer_map ctxOk sb0 300000 16).2.1 = 0
    ∧ (wined3d_streaming_buffer_map ctxOk sb0 300000 16).2.2.1
        = ⟨false, true, false, true⟩
    ∧ (wined3d_streaming_buffer_map ctxOk sb0 300000 16).2.2.2.pos = 300000
    ∧ (wined3d_streaming_buffer_map ctxOk
        (wined3d_streaming_buffer_map ctxOk sb0 300000 16).2.2.2 300000 16).1
        = HResult.WINED3D_OK
    ∧ (wined3d_streaming_buffer_map ctxOk
        (wined3d_streaming_buffer_map ctxOk sb0 300000 16).2.2.2 300000 16).2.1 = 0
    ∧ (wined3d_streaming_buffer_map ctxOk
        (wined3d_streaming_buffer_map ctxOk sb0 300000 16).2.2.2 300000 16).2.2.1
        = ⟨false, true, true, false⟩
    ∧ (wined3d_streaming_buffer_map ctxOk
        (wined3d_streaming_buffer_map ctxOk sb0 300000 16).2.2.2 300000 16).2.2.2.pos
        = 300000 := by
  refine ⟨?_, ?_, ?_, ?_, ?_, ?_, ?_, ?_⟩ <;> decide

/-! ## Helper lemmas -/

/-- Pair eta with a known first component: lets a `match` on a function
result reduce once the status is known. -/
theorem pair_eta_fst {A B : Type} (p : A × B) (a : A) (h : p.1 = a) : p = (a, p.2) :=
  Prod.ext h rfl

/-- prepare(BUFFER) on a buffer that already has a BO is the identity. -/
theorem prepare_buffer_of_bo (ctx : Ctx) (b : Buffer)
    (h : b.buffer_object.isSome = true) :
    wined3d_buffer_gl_prepare_location ctx b LOC_BUFFER = (true, b) := by
  unfold wined3d_buffer_gl_prepare_location
  simp [LOC_BUFFER, LOC_SYSMEM, h]

/-- prepare(BUFFER) with no BO and a failing BO allocation oracle fails,
leaving map_count, map_ptr, locations and size untouched. -/
theorem prepare_buffer_fail (ctx : Ctx) (b : Buffer)
    (hobj : b.buffer_object = none)
    (hfail : ctx.bo_heap_alloc_ok = false ∨ ctx.bo_create_ok = false) :
    (wined3d_buffer_gl_prepare_location ctx b LOC_BUFFER).1 = false
    ∧ (wined3d_buffer_gl_prepare_location ctx b LOC_BUFFER).2.map_count = b.map_count
    ∧ (wined3d_buffer_gl_prepare_location ctx b LOC_BUFFER).2.map_ptr = b.map_ptr := by
  unfold wined3d_buffer_gl_prepare_location wined3d_buffer_gl_create_buffer_object
  cases hu : b.flag_use_bo <;> rcases hfail with h | h <;>
    cases hh : ctx.bo_heap_alloc_ok <;>
    simp_all [LOC_BUFFER, LOC_SYSMEM, buffer_clear_dirty_areas]

/-- The per-field effect of the clean-draw bookkeeping. -/
theorem drawDecay_fields (b : Buffer) :
    (drawDecay b).draw_count = b.draw_count + 1
    ∧ (drawDecay b).decl_change_count
        = (if b.draw_count + 1 > VB_RESETDECLCHANGE then 0 else b.decl_change_count)
    ∧ (drawDecay b).full_conversion_count
        = (if b.draw_count + 1 > VB_RESETFULLCONVS then 0 else b.full_conversion_count)
    ∧ (drawDecay b).map_ptr = b.map_ptr
    ∧ (drawDecay b).flag_use_bo = b.flag_use_bo
    ∧ (drawDecay b).buffer_object = b.buffer_object
    ∧ (drawDecay b).maps = b.maps
    ∧ (drawDecay b).map_count = b.map_count := by
  unfold drawDecay
  by_cases h1 : b.draw_count + 1 > VB_RESETDECLCHANGE <;>
    by_cases h2 : b.draw_count + 1 > VB_RESETFULLCONVS <;>
      simp [h1, h2]

/-- A per-draw load with a NULL state on a clean, BO-resident, unmapped
buffer is exactly the decay bookkeeping. -/
theorem clean_step (ctx : Ctx) (b : Buffer) (hmp : b.map_ptr = false)
    (hbo : b.flag_use_bo = true) (hobj : b.buffer_object.isSome = true)
    (hdirty : b.maps = []) :
    wined3d_buffer_load ctx b none = drawDecay b := by
  unfold wined3d_buffer_load
  rw [prepare_buffer_of_bo ctx b hobj]
  simp [hmp, hbo, buffer_is_dirty, hdirty]
  unfold loadPostPrepare
  simp [buffer_is_dirty, hdirty]

/-- Closed form of `k` clean draws: draw_count advances by `k`; the
declaration-change counter is zeroed exactly when some intermediate
draw_count exceeded VB_RESETDECLCHANGE, i.e. when k ≥ 1 and
draw_count + k > 1000; likewise full_conversion_count with 20. -/
theorem cleanDraws_spec (ctx : Ctx) (k : Nat) : ∀ b : Buffer,
    b.map_ptr = false → b.flag_use_bo = true → b.buffer_object.isSome = true →
    b.maps = [] →
    (cleanDraws ctx k b).draw_count = b.draw_count + k
    ∧ (cleanDraws ctx k b).decl_change_count
        = (if 1 ≤ k ∧ b.draw_count + k > VB_RESETDECLCHANGE then 0 else b.decl_change_count)
    ∧ (cleanDraws ctx k b).full_conversion_count
        = (if 1 ≤ k ∧ b.draw_count + k > VB_RESETFULLCONVS then 0
           else b.full_conversion_count) := by
  induction k with
  | zero => intro b h1 h2 h3 h4; simp [cleanDraws]
  | succ n ih =>
    intro b h1 h2 h3 h4
    have hstep : cleanDraws ctx (n + 1) b = cleanDraws ctx n (drawDecay b) := by
      show cleanDraws ctx n (wined3d_buffer_load ctx b none) = _
      rw [clean_step ctx b h1 h2 h3 h4]
    obtain ⟨f1, f2, f3, f4, f5, f6, f7, _⟩ := drawDecay_fields b
    have ihd := ih (drawDecay b) (f4.trans h1) (f5.trans h2)
      (by rw [f6]; exact h3) (f7.trans h4)
    rw [hstep]
    refine ⟨?_, ?_, ?_⟩
    · rw [ihd.1, f1]; omega
    · rw [ihd.2.1, f1, f2]
      unfold VB_RESETDECLCHANGE
      split_ifs <;> omega
    · rw [ihd.2.2, f1, f3]
      unfold VB_RESETFULLCONVS
      split_ifs <;> omega

/-! ## Counter decay (C4) -/

/-- Counterexample to claim C4 as stated: from draw_count = 0 with
decl_change_count = full_conversion_count = 1, 1000 clean draws leave
decl_change_count at 1 (the 1000th draw makes draw_count = 1000, and the
reset requires draw_count > 1000); likewise 20 clean draws leave
full_conversion_count at 1. -/
theorem C4_counterexample :
    (cleanDraws ctxOk 1000 buf4).decl_change_count ≠ 0
    ∧ (cleanDraws ctxOk 20 buf4).full_conversion_count ≠ 0 := by
  have h1 := cleanDraws_spec ctxOk 1000 buf4 rfl rfl rfl rfl
  have h2 := cleanDraws_spec ctxOk 20 buf4 rfl rfl rfl rfl
  refine ⟨?_, ?_⟩
  · rw [h1.2.1]
    norm_num [buf4, baseBuf, VB_RESETDECLCHANGE]
  · rw [h2.2.2]
    norm_num [buf4, baseBuf, VB_RESETFULLCONVS]

/-- Claim C4 as amended: starting from any clean-draw-capable state
(unmapped, BO resident, empty dirty set), 1001 consecutive clean draws
drive decl_change_count to 0, and 21 drive full_conversion_count to 0
(1000 and 20 suffice only when draw_count starts at 1 or more). -/
theorem C4_amended_decay (ctx : Ctx) (b : Buffer) (h1 : b.map_ptr = false)
    (h2 : b.flag_use_bo = true) (h3 : b.buffer_object.isSome = true)
    (h4 : b.maps = []) :
    (cleanDraws ctx 1001 b).decl_change_count = 0
    ∧ (cleanDraws ctx 21 b).full_conversion_count = 0 := by
  have hA := cleanDraws_spec ctx 1001 b h1 h2 h3 h4
  have hB := cleanDraws_spec ctx 21 b h1 h2 h3 h4
  constructor
  · rw [hA.2.1, if_pos (by unfold VB_RESETDECLCHANGE; omega)]
  · rw [hB.2.2, if_pos (by unfold VB_RESETFULLCONVS; omega)]

/-- Witness for C4's amended claim at the concrete buffer buf4. -/
theorem C4_witness :
    (buf4.map_ptr = false ∧ buf4.flag_use_bo = true
      ∧ buf4.buffer_object.isSome = true ∧ buf4.maps = [])
    ∧ ((cleanDraws ctxOk 1001 buf4).decl_change_count = 0
        ∧ (cleanDraws ctxOk 21 buf4).full_conversion_count = 0) :=
  ⟨⟨rfl, rfl, rfl, rfl⟩, C4_amended_decay ctxOk buf4 rfl rfl rfl rfl⟩

/-! ## Non-atomic failed DISCARD map (C10) -/

/-- Claim C10: map increments map_count before attempting residency, so a
DISCARD map that fails because the backend cannot prepare the BUFFER
location returns E_OUTOFMEMORY with map_count still incremented, and a
matching unmap (which returns WINED3D_OK) restores the count. -/
theorem C10_nonatomic_discard_map (ctx : Ctx) (b : Buffer) (box : Nat × Nat)
    (rd w nv : Bool)
    (hbo : b.flag_use_bo = true) (hpin : b.pin_sysmem = false)
    (hobj : b.buffer_object = none)
    (hfail : ctx.bo_heap_alloc_ok = false ∨ ctx.bo_create_ok = false)
    (hw : w = true ∨ b.locations &&& LOC_SYSMEM = 0) :
    (buffer_resource_sub_resource_map ctx b 0 box ⟨rd, w, true, nv⟩).1
        = HResult.E_OUTOFMEMORY
    ∧ (buffer_resource_sub_resource_map ctx b 0 box ⟨rd, w, true, nv⟩).2.map_count
        = b.map_count + 1
    ∧ (buffer_resource_sub_resource_unmap
        (buffer_resource_sub_resource_map ctx b 0 box ⟨rd, w, true, nv⟩).2 0).1
        = HResult.WINED3D_OK
    ∧ (buffer_resource_sub_resource_unmap
        (buffer_resource_sub_resource_map ctx b 0 box ⟨rd, w, true, nv⟩).2 0).2.map_count
        = b.map_count := by
  obtain ⟨p1, p2, p3⟩ :=
    prepare_buffer_fail ctx { b with map_count := b.map_count + 1 } hobj hfail
  have hmap : buffer_resource_sub_resource_map ctx b 0 box ⟨rd, w, true, nv⟩
      = (HResult.E_OUTOFMEMORY,
         (wined3d_buffer_gl_prepare_location ctx
           { b with map_count := b.map_count + 1 } LOC_BUFFER).2) := by
    unfold buffer_resource_sub_resource_map
    rw [if_neg]
    · rcases hP : wined3d_buffer_gl_prepare_location ctx
        { b with map_count := b.map_count + 1 } LOC_BUFFER with ⟨st, b1⟩
      rw [hP] at p1
      cases st
      · rfl
      · simp at p1
    · intro hc
      rcases hc with hc | hc | hc | hc
      · simp at hc
      · rcases hw with hw | hw
        · rw [hw] at hc; simp at hc
        · exact hc.2 hw
      · simp [hpin] at hc
      · simp [hbo] at hc
  rw [hmap]
  refine ⟨rfl, p2, ?_, ?_⟩ <;>
  · unfold buffer_resource_sub_resource_unmap
    rw [p2]
    rcases Nat.eq_zero_or_pos b.map_count with hz | hz
    · cases hmp : (wined3d_buffer_gl_prepare_location ctx
          { b with map_count := b.map_count + 1 } LOC_BUFFER).2.map_ptr <;>
        simp_all [buffer_clear_dirty_areas]
    · simp_all [Nat.ne_of_gt hz]

/-- Witness for C10: a fresh USE_BO buffer whose BO creation fails, mapped
with WRITE|DISCARD. -/
theorem C10_witness :
    (buf2.flag_use_bo = true ∧ buf2.pin_sysmem = false ∧ buf2.buffer_object = none
      ∧ ctxNoBo.bo_create_ok = false)
    ∧ ((buffer_resource_sub_resource_map ctxNoBo buf2 0 (0, 4) ⟨false, true, true, false⟩).1
        = HResult.E_OUTOFMEMORY
      ∧ (buffer_resource_sub_resource_map ctxNoBo buf2 0 (0, 4)
          ⟨false, true, true, false⟩).2.map_count = buf2.map_count + 1
      ∧ (buffer_resource_sub_resource_unmap
          (buffer_resource_sub_resource_map ctxNoBo buf2 0 (0, 4)
            ⟨false, true, true, false⟩).2 0).1 = HResult.WINED3D_OK
      ∧ (buffer_resource_sub_resource_unmap
          (buffer_resource_sub_resource_map ctxNoBo buf2 0 (0, 4)
            ⟨false, true, true, false⟩).2 0).2.map_count = buf2.map_count) :=
  ⟨⟨rfl, rfl, rfl, rfl⟩,
    C10_nonatomic_discard_map ctxNoBo buf2 (0, 4) false true false rfl rfl rfl
      (Or.inr rfl) (Or.inl rfl)⟩

/-! ## Location non-emptiness (C1) -/

/-- Claim C1 counterexample: with host allocation failing, a WRITE map on a
freshly cleared buffer completes with WINED3D_OK yet leaves the location
set empty (the failed SYSMEM load leaves CLEARED as the only location, and
the write invalidation then strips it). -/
theorem C1_counterexample :
    (buffer_resource_sub_resource_map ctxNoSys buf1 0 (0, 4)
        ⟨false, true, false, false⟩).1 = HResult.WINED3D_OK
    ∧ (buffer_resource_sub_resource_map ctxNoSys buf1 0 (0, 4)
        ⟨false, true, false, false⟩).2.locations = 0 := by
  constructor <;> decide

/-- Claim C1 as amended: when the allocation oracles succeed, every
completed operation keeps the location set non-empty; and independently of
any oracle, load_location always completes with a non-empty location set —
entered with an empty set it validates DISCARDED and retries the load. -/
theorem C1_amended_nonempty (l : List (Ctx × BufOp)) (b : Buffer)
    (hg : ∀ p ∈ l, goodAlloc p.1) (hne : b.locations ≠ 0) :
    (applyOps l b).locations ≠ 0
    ∧ ∀ (ctx : Ctx) (b0 : Buffer) (loc : Nat),
        ((wined3d_buffer_load_location ctx b0 loc).2).locations ≠ 0 :=
  ⟨applyOps_nonempty l b hg hne,
    fun ctx b0 loc => (load_location_master ctx b0 loc).2.2.1⟩

/-- Witness for C1: a write map followed by a preload on a fresh buffer,
all under successful oracles. -/
theorem C1_witness :
    (∀ p ∈ [(ctxOk, BufOp.opMap 0 (0, 4) ⟨false, true, false, false⟩),
        (ctxOk, BufOp.opLoad none)], goodAlloc p.1)
    ∧ buf1.locations ≠ 0
    ∧ (applyOps [(ctxOk, BufOp.opMap 0 (0, 4) ⟨false, true, false, false⟩),
        (ctxOk, BufOp.opLoad none)] buf1).locations ≠ 0 := by
  have hg : ∀ p ∈ [(ctxOk, BufOp.opMap 0 (0, 4)
        (⟨false, true, false, false⟩ : MapFlags)),
      (ctxOk, BufOp.opLoad none)], goodAlloc p.1 := by
    intro p hp
    simp only [List.mem_cons, List.not_mem_nil, or_false] at hp
    rcases hp with rfl | rfl
    · exact ⟨rfl, rfl, rfl⟩
    · exact ⟨rfl, rfl, rfl⟩
  exact ⟨hg, by decide, (C1_amended_nonempty _ buf1 hg (by decide)).1⟩

/-! ## DISCARD dirty-range semantics (C2) -/

/-- Claim C2 counterexample: a WRITE|DISCARD map whose BO creation fails
returns E_OUTOFMEMORY and does not mark the buffer fully dirty. -/
theorem C2_counterexample :
    (buffer_resource_sub_resource_map ctxNoBo buf2 0 (0, 4)
        ⟨false, true, true, false⟩).1 = HResult.E_OUTOFMEMORY
    ∧ (buffer_resource_sub_resource_map ctxNoBo buf2 0 (0, 4)
        ⟨false, true, true, false⟩).2.maps ≠ [(0, buf2.size)] := by
  constructor <;> decide

/-- Claim C2 as amended: a WRITE|DISCARD map that returns WINED3D_OK and
does not drop the device BO (USE_BO is unchanged) leaves the range set
exactly {[0,size)}, regardless of the supplied box. -/
theorem C2_amended_discard (ctx : Ctx) (b : Buffer) (idx : Nat)
    (box : Nat × Nat) (flags : MapFlags)
    (hw : flags.write = true) (hd : flags.discard = true)
    (hOK : (buffer_resource_sub_resource_map ctx b idx box flags).1
      = HResult.WINED3D_OK)
    (hu : (buffer_resource_sub_resource_map ctx b idx box flags).2.flag_use_bo
      = b.flag_use_bo) :
    (buffer_resource_sub_resource_map ctx b idx box flags).2.maps
      = [(0, b.size)] :=
  (map_op_master ctx b idx box flags).2.2 hw hd hOK hu

/-- Witness for C2: an aligned WRITE|DISCARD map of a sub-box on a USE_BO
buffer under successful oracles. -/
theorem C2_witness :
    ((buffer_resource_sub_resource_map ctxOk buf2 0 (0, 2)
          ⟨false, true, true, false⟩).1 = HResult.WINED3D_OK
      ∧ (buffer_resource_sub_resource_map ctxOk buf2 0 (0, 2)
          ⟨false, true, true, false⟩).2.flag_use_bo = buf2.flag_use_bo)
    ∧ (buffer_resource_sub_resource_map ctxOk buf2 0 (0, 2)
        ⟨false, true, true, false⟩).2.maps = [(0, buf2.size)] :=
  ⟨⟨by decide, by decide⟩,
    C2_amended_discard ctxOk buf2 0 (0, 2) ⟨false, true, true, false⟩
      rfl rfl (by decide) (by decide)⟩

/-! ## Declaration-change cutoff (C3) -/

/-- Claim C3: when the per-draw load sees a declaration change that pushes
decl_change_count past VB_MAXDECLCHANGES, it drops the device BO (USE_BO
becomes false and the BO is freed), and USE_BO then stays false across any
subsequent sequence of operations. -/
theorem C3_decl_cutoff (ctx : Ctx) (b : Buffer) (s : DrawState)
    (l : List (Ctx × BufOp))
    (hmp : ¬(b.map_count ≠ 0 ∧ b.map_ptr = true))
    (hub : b.flag_use_bo = true)
    (hprep : (wined3d_buffer_gl_prepare_location ctx b LOC_BUFFER).1 = true)
    (hdc : (buffer_find_decl
        (wined3d_buffer_gl_prepare_location ctx b LOC_BUFFER).2
        s.si s (load_fixup_flags ctx s)).1 = true)
    (hcnt : VB_MAXDECLCHANGES ≤ b.decl_change_count) :
    (wined3d_buffer_load ctx b (some s)).flag_use_bo = false
    ∧ (wined3d_buffer_load ctx b (some s)).buffer_object = none
    ∧ (applyOps l (wined3d_buffer_load ctx b (some s))).flag_use_bo = false := by
  have hmain : (wined3d_buffer_load ctx b (some s)).flag_use_bo = false
      ∧ (wined3d_buffer_load ctx b (some s)).buffer_object = none := by
    unfold wined3d_buffer_load
    rw [if_neg hmp, if_neg (fun hc => hc hub)]
    rcases hP : wined3d_buffer_gl_prepare_location ctx b LOC_BUFFER with ⟨st, b1⟩
    obtain ⟨p1, p2, p3, p4, p5, p6, p7, p8⟩ := prepare_master ctx b LOC_BUFFER
    rw [hP] at hprep hdc p1
    cases st
    · simp at hprep
    · dsimp only
      dsimp only at hdc
      rcases hF : buffer_find_decl b1 s.si s (load_fixup_flags ctx s)
        with ⟨chg, bf⟩
      obtain ⟨f1, f2, f3, f4⟩ := find_decl_pres b1 s.si s (load_fixup_flags ctx s)
      rw [hF] at hdc f1 f2 f3 f4
      dsimp only at hdc f1 f2 f3 f4
      subst hdc
      unfold loadPostPrepare
      dsimp only
      rw [if_neg (fun hc => hc.1 rfl), if_pos rfl,
        if_pos (Or.inl (show bf.decl_change_count + 1 > VB_MAXDECLCHANGES from by
          rw [f3]
          have hd1 : b1.decl_change_count = b.decl_change_count :=
            p1.2.2.2.2.2.2.2.2.2.1
          rw [hd1]
          omega))]
      exact ⟨(drop_bo_master ctx _).1, (drop_bo_master ctx _).2.1⟩
  exact ⟨hmain.1, hmain.2, applyOps_use_bo l _ hmain.1⟩

/-- Witness for C3: a buffer at the 100-change threshold whose next draw
changes the declaration again (FFP D3DCOLOR fixup on a BGRA attribute). -/
theorem C3_witness :
    ((¬(buf3.map_count ≠ 0 ∧ buf3.map_ptr = true)) ∧ buf3.flag_use_bo = true
      ∧ (wined3d_buffer_gl_prepare_location ctxFix buf3 LOC_BUFFER).1 = true
      ∧ (buffer_find_decl
          (wined3d_buffer_gl_prepare_location ctxFix buf3 LOC_BUFFER).2
          ds3.si ds3 (load_fixup_flags ctxFix ds3)).1 = true
      ∧ VB_MAXDECLCHANGES ≤ buf3.decl_change_count)
    ∧ ((wined3d_buffer_load ctxFix buf3 (some ds3)).flag_use_bo = false
      ∧ (wined3d_buffer_load ctxFix buf3 (some ds3)).buffer_object = none
      ∧ (applyOps [(ctxOk, BufOp.opLoad none)]
          (wined3d_buffer_load ctxFix buf3 (some ds3))).flag_use_bo = false) :=
  ⟨⟨by decide, by decide, by decide, by decide, by decide⟩,
    C3_decl_cutoff ctxFix buf3 ds3 [(ctxOk, BufOp.opLoad none)]
      (by decide) (by decide) (by decide) (by decide) (by decide)⟩

/-! ## Idempotent load_location (C9) -/

/-- Claim C9: if load_location(L) succeeds, an immediately following
load_location(L) — under any context — is an exact no-op returning
success, because L is already in the valid set; the two calls together
perform at most one backend copy (from a well-formed location set). -/
theorem C9_idempotent_load (ctx ctx2 : Ctx) (b : Buffer) (loc : Nat)
    (hwf : b.locations < 16)
    (hs : (wined3d_buffer_load_location ctx b loc).1 = true) :
    wined3d_buffer_load_location ctx2
        (wined3d_buffer_load_location ctx b loc).2 loc
      = (true, (wined3d_buffer_load_location ctx b loc).2)
    ∧ ((wined3d_buffer_load_location ctx b loc).2).copies ≤ b.copies + 1 := by
  refine ⟨?_, (load_location_master ctx b loc).2.2.2.2 hwf⟩
  have hmem := (load_location_master ctx b loc).2.2.2.1 hs
  exact loadF_mem 3 ctx2 _ loc hmem

/-- Witness for C9: loading SYSMEM twice on a fresh cleared buffer. -/
theorem C9_witness :
    (buf1.locations < 16
      ∧ (wined3d_buffer_load_location ctxOk buf1 LOC_SYSMEM).1 = true)
    ∧ (wined3d_buffer_load_location ctxOk
          (wined3d_buffer_load_location ctxOk buf1 LOC_SYSMEM).2 LOC_SYSMEM
        = (true, (wined3d_buffer_load_location ctxOk buf1 LOC_SYSMEM).2)
      ∧ ((wined3d_buffer_load_location ctxOk buf1 LOC_SYSMEM).2).copies
          ≤ buf1.copies + 1) :=
  ⟨⟨by decide, by decide⟩,
    C9_idempotent_load ctxOk ctxOk buf1 LOC_SYSMEM (by decide) (by decide)⟩

end Wined3dBuffer
